import Mathlib

/-!
# Verification of the MuJoCo composite-object expander

A shallow embedding of `src/user/user_composite.cc`: the composite-to-rigid-body
expansion algorithm (`mjCComposite::Make` and its shape-specific builders) and the
skin-binding geometry, including the bicubic subgrid vertex-weight matrices.

Machine reals (`mjtNum`, i.e. C `double`) are modelled by `ℚ`; generated entity
names (C `sprintf` with `%d` fields) are modelled by `String` with an explicit
decimal-numeral function.  Model-container entities (bodies, joints, geoms, sites,
tendons, equality constraints, skins) are modelled as records accumulated in lists,
in the order the source creates them.
-/

namespace MjComposite

/-! ## Decimal numerals: the model of `sprintf "%d"` on nonnegative values -/

/-- The characters of the decimal numeral of `n`, most significant digit first. -/
def decChars (n : ℕ) : List Char :=
  if n = 0 then ['0'] else ((Nat.digits 10 n).reverse).map Nat.digitChar

/-- Decimal numeral of `n` as a string; model of `%d` formatting of a nonnegative int. -/
def dec (n : ℕ) : String := ⟨decChars n⟩

/-- Numeric value of a digit character. -/
def charVal (c : Char) : ℕ := c.toNat - 48

theorem charVal_digitChar {d : ℕ} (hd : d < 10) : charVal (Nat.digitChar d) = d := by
  interval_cases d <;> rfl

theorem map_charVal_digitChar {l : List ℕ} (h : ∀ d ∈ l, d < 10) :
    (l.map Nat.digitChar).map charVal = l := by
  induction l with
  | nil => rfl
  | cons a t ih =>
      simp only [List.map_cons, List.cons.injEq]
      exact ⟨charVal_digitChar (h a (List.mem_cons_self a t)),
             ih fun d hd => h d (List.mem_cons_of_mem a hd)⟩

theorem decChars_leftInverse (n : ℕ) :
    Nat.ofDigits 10 (((decChars n).map charVal).reverse) = n := by
  unfold decChars
  by_cases h : n = 0
  · subst h
    simp [charVal, Nat.ofDigits]
  · rw [if_neg h]
    have hmem : ∀ d ∈ (Nat.digits 10 n).reverse, d < 10 := by
      intro d hd
      exact Nat.digits_lt_base (by norm_num) (List.mem_reverse.mp hd)
    rw [map_charVal_digitChar hmem, List.reverse_reverse, Nat.ofDigits_digits]

theorem decChars_inj : Function.Injective decChars := by
  intro a b h
  have := decChars_leftInverse a
  rw [h, decChars_leftInverse b] at this
  exact this.symm

theorem dec_inj : Function.Injective dec := by
  intro a b h
  exact decChars_inj (congrArg String.data h)

theorem decChars_isDigit (n : ℕ) : ∀ c ∈ decChars n, c.isDigit = true := by
  intro c hc
  unfold decChars at hc
  by_cases h : n = 0
  · rw [if_pos h] at hc
    simp only [List.mem_singleton] at hc
    subst hc; rfl
  · rw [if_neg h] at hc
    obtain ⟨d, hd, rfl⟩ := List.mem_map.mp hc
    have hd10 : d < 10 := Nat.digits_lt_base (by norm_num) (List.mem_reverse.mp hd)
    interval_cases d <;> rfl

theorem decChars_ne_nil (n : ℕ) : decChars n ≠ [] := by
  unfold decChars
  by_cases h : n = 0
  · rw [if_pos h]; simp
  · rw [if_neg h]
    simp only [ne_eq, List.map_eq_nil_iff, List.reverse_eq_nil_iff]
    exact Nat.digits_ne_nil_iff_ne_zero.mpr h

theorem decChars_ne_sep (n : ℕ) : ∀ c ∈ decChars n, c ≠ '_' := by
  intro c hc he
  have := decChars_isDigit n c hc
  subst he
  simp [Char.isDigit] at this

/-! ## Splitting at a separator character -/

theorem append_sep_inj {a₁ a₂ b₁ b₂ : List Char}
    (h₁ : ∀ c ∈ a₁, c ≠ '_') (h₂ : ∀ c ∈ a₂, c ≠ '_')
    (h : a₁ ++ '_' :: b₁ = a₂ ++ '_' :: b₂) : a₁ = a₂ ∧ b₁ = b₂ := by
  induction a₁ generalizing a₂ with
  | nil =>
      cases a₂ with
      | nil => simpa using h
      | cons y u =>
          simp only [List.nil_append, List.cons_append, List.cons.injEq] at h
          exact absurd h.1.symm (h₂ y (List.mem_cons_self y u))
  | cons x t ih =>
      cases a₂ with
      | nil =>
          simp only [List.nil_append, List.cons_append, List.cons.injEq] at h
          exact absurd h.1 (h₁ x (List.mem_cons_self x t))
      | cons y u =>
          simp only [List.cons_append, List.cons.injEq] at h
          obtain ⟨rfl, h2⟩ := h
          obtain ⟨rfl, rfl⟩ := ih (fun c hc => h₁ c (List.mem_cons_of_mem _ hc))
            (fun c hc => h₂ c (List.mem_cons_of_mem _ hc)) h2
          exact ⟨rfl, rfl⟩

/-! ## Name formatting: models of the `sprintf` patterns `"%s<tag>%d"`,
`"%s<tag>%d_%d"`, `"%s<tag>%d_%d_%d"` used throughout the expander. -/

def fmt1 (pfx tag : String) (a : ℕ) : String := pfx ++ tag ++ dec a

def fmt2 (pfx tag : String) (a b : ℕ) : String :=
  pfx ++ tag ++ dec a ++ "_" ++ dec b

def fmt3 (pfx tag : String) (a b c : ℕ) : String :=
  pfx ++ tag ++ dec a ++ "_" ++ dec b ++ "_" ++ dec c

theorem fmt2_data (pfx tag : String) (a b : ℕ) :
    (fmt2 pfx tag a b).data =
      (pfx.data ++ tag.data) ++ (decChars a ++ '_' :: decChars b) := by
  simp [fmt2, dec, String.data_append]

theorem fmt3_data (pfx tag : String) (a b c : ℕ) :
    (fmt3 pfx tag a b c).data =
      (pfx.data ++ tag.data) ++ (decChars a ++ '_' :: (decChars b ++ '_' :: decChars c)) := by
  simp [fmt3, dec, String.data_append]

theorem fmt2_inj {pfx tag : String} {a b a' b' : ℕ}
    (h : fmt2 pfx tag a b = fmt2 pfx tag a' b') : a = a' ∧ b = b' := by
  have hd := congrArg String.data h
  rw [fmt2_data, fmt2_data] at hd
  have hd2 := List.append_cancel_left hd
  obtain ⟨ha, hb⟩ := append_sep_inj (decChars_ne_sep a) (decChars_ne_sep a') hd2
  exact ⟨decChars_inj ha, decChars_inj hb⟩

theorem fmt3_inj {pfx tag : String} {a b c a' b' c' : ℕ}
    (h : fmt3 pfx tag a b c = fmt3 pfx tag a' b' c') : a = a' ∧ b = b' ∧ c = c' := by
  have hd := congrArg String.data h
  rw [fmt3_data, fmt3_data] at hd
  have hd2 := List.append_cancel_left hd
  obtain ⟨ha, hbc⟩ := append_sep_inj (decChars_ne_sep a) (decChars_ne_sep a') hd2
  obtain ⟨hb, hc⟩ := append_sep_inj (decChars_ne_sep b) (decChars_ne_sep b') hbc
  exact ⟨decChars_inj ha, decChars_inj hb, decChars_inj hc⟩

theorem fmt3_ne_empty (pfx tag : String) (a b c : ℕ) (htag : tag.data ≠ []) :
    fmt3 pfx tag a b c ≠ "" := by
  intro h
  have hd := congrArg String.data h
  rw [fmt3_data] at hd
  rcases List.append_eq_nil.mp hd with ⟨h1, -⟩
  exact htag (List.append_eq_nil.mp h1).2

/-! ## Lattice enumeration: the nested `for` loops over lattice indices -/

/-- Index pairs `(i, j)` produced by `for i < n { for j < m }`. -/
def enum2 (n m : ℕ) : List (ℕ × ℕ) :=
  (List.range n).flatMap fun i => (List.range m).map fun j => (i, j)

/-- Index triples `(i, j, k)` produced by `for i < n { for j < m { for k < p } }`. -/
def enum3 (n m p : ℕ) : List (ℕ × ℕ × ℕ) :=
  (List.range n).flatMap fun i => (enum2 m p).map fun q => (i, q.1, q.2)

theorem mem_enum2 {n m : ℕ} {q : ℕ × ℕ} : q ∈ enum2 n m ↔ q.1 < n ∧ q.2 < m := by
  cases q with
  | mk i j =>
    simp only [enum2, List.mem_flatMap, List.mem_map, List.mem_range, Prod.mk.injEq]
    constructor
    · rintro ⟨a, ha, b, hb, rfl, rfl⟩; exact ⟨ha, hb⟩
    · rintro ⟨hi, hj⟩; exact ⟨i, hi, j, hj, rfl, rfl⟩

theorem mem_enum3 {n m p : ℕ} {q : ℕ × ℕ × ℕ} :
    q ∈ enum3 n m p ↔ q.1 < n ∧ q.2.1 < m ∧ q.2.2 < p := by
  obtain ⟨i, j, k⟩ := q
  simp only [enum3, List.mem_flatMap, List.mem_map, List.mem_range, Prod.mk.injEq]
  constructor
  · rintro ⟨a, ha, b, hb, rfl, h2⟩
    obtain ⟨rfl, rfl⟩ : j = b.1 ∧ k = b.2 := by
      exact ⟨h2.1.symm, h2.2.symm⟩
    exact ⟨ha, (mem_enum2.mp hb).1, (mem_enum2.mp hb).2⟩
  · rintro ⟨hi, hj, hk⟩
    exact ⟨i, hi, (j, k), mem_enum2.mpr ⟨hj, hk⟩, rfl, rfl, rfl⟩

theorem length_enum2 (n m : ℕ) : (enum2 n m).length = n * m := by
  induction n with
  | zero => simp [enum2]
  | succ k ih =>
      unfold enum2 at ih ⊢
      rw [List.range_succ, List.flatMap_append, List.length_append, ih]
      simp [Nat.succ_mul]

theorem length_enum3 (n m p : ℕ) : (enum3 n m p).length = n * m * p := by
  induction n with
  | zero => simp [enum3]
  | succ k ih =>
      unfold enum3 at ih ⊢
      rw [List.range_succ, List.flatMap_append, List.length_append, ih]
      simp only [List.flatMap_cons, List.flatMap_nil, List.append_nil, List.length_map,
        length_enum2, Nat.succ_mul]
      ring

theorem nodup_enum2 (n m : ℕ) : (enum2 n m).Nodup := by
  rw [enum2, List.nodup_flatMap]
  constructor
  · intro i _
    exact (List.nodup_range m).map fun a b hab => (Prod.mk.injEq ..).mp hab |>.2
  · have := List.pairwise_lt_range n
    refine this.imp ?_
    intro a b hab
    intro q hqa hqb
    obtain ⟨ja, -, rfl⟩ := List.mem_map.mp hqa
    obtain ⟨jb, -, hq⟩ := List.mem_map.mp hqb
    exact absurd ((Prod.mk.injEq ..).mp hq).1 hab.ne.symm

theorem nodup_enum3 (n m p : ℕ) : (enum3 n m p).Nodup := by
  rw [enum3, List.nodup_flatMap]
  constructor
  · intro i _
    refine (nodup_enum2 m p).map ?_
    intro a b hab
    simp only [Prod.mk.injEq] at hab
    exact Prod.ext_iff.mpr ⟨hab.2.1, hab.2.2⟩
  · have := List.pairwise_lt_range n
    refine this.imp ?_
    intro a b hab q hqa hqb
    obtain ⟨ja, -, rfl⟩ := List.mem_map.mp hqa
    obtain ⟨jb, -, hq⟩ := List.mem_map.mp hqb
    exact absurd ((Prod.mk.injEq ..).mp hq).1 hab.ne.symm

/-! ## Generic counting helpers -/

theorem countP_eq_one_of_mem_nodup {α : Type} {l : List α} {t : α} {p : α → Bool}
    (hl : l.Nodup) (ht : t ∈ l) (hp : ∀ x ∈ l, p x = true ↔ x = t) :
    l.countP p = 1 := by
  induction l with
  | nil => simp at ht
  | cons a rest ih =>
      rw [List.countP_cons]
      rcases List.mem_cons.mp ht with rfl | htr
      · have ha : p t = true := (hp t (List.mem_cons_self _ _)).mpr rfl
        have hz : rest.countP p = 0 := by
          rw [List.countP_eq_zero]
          intro x hx hpx
          have hxt := (hp x (List.mem_cons_of_mem _ hx)).mp hpx
          subst hxt
          exact (List.nodup_cons.mp hl).1 hx
        simp [hz, ha]
      · have ha : p a ≠ true := fun hpa => by
          have hat := (hp a (List.mem_cons_self _ _)).mp hpa
          subst hat
          exact (List.nodup_cons.mp hl).1 htr
        rw [ih (List.nodup_cons.mp hl).2 htr (fun x hx => hp x (List.mem_cons_of_mem _ hx))]
        simp [ha]

/-- Filtering the image of a duplicate-free list by a predicate that singles out
exactly one source element yields exactly one hit. -/
theorem filter_map_count_one {α β : Type} {l : List α} {t : α} (f : α → β) (p : β → Bool)
    (hl : l.Nodup) (ht : t ∈ l) (hp : ∀ x ∈ l, p (f x) = true ↔ x = t) :
    ((l.map f).filter p).length = 1 := by
  rw [← List.countP_eq_length_filter, List.countP_map]
  exact countP_eq_one_of_mem_nodup hl ht hp

/-! ## The composite specification (`mjCComposite` fields used by the expander).

Field defaults mirror the `mjCComposite` constructor.  The `def*` fields model the
values the generated entities draw from the default-parameter bundles
(`defjoint`/`def`); they are opaque rationals here since the claims treat them as
pass-through. -/

inductive CompType
  | particle | grid | rope | loop | cable | cloth | box | cylinder | ellipsoid
deriving DecidableEq

inductive GeomType
  | sphere | capsule | ellipsoid | cylinder | box | plane
deriving DecidableEq

inductive CurveType
  | line | cos | sin | zero
deriving DecidableEq

structure CSpec where
  ctype : CompType := .particle
  pfx : String := ""
  count0 : ℕ := 1
  count1 : ℕ := 1
  count2 : ℕ := 1
  spacing : ℚ := 0
  offset0 : ℚ := 0
  offset1 : ℚ := 0
  offset2 : ℚ := 0
  pin : List ℤ := []
  geomtype : GeomType := .sphere
  geomsize0 : ℚ := 0
  geomsize1 : ℚ := 0
  geomsize2 : ℚ := 0
  size0 : ℚ := 1
  size1 : ℚ := 0
  size2 : ℚ := 0
  uservert : List ℚ := []
  initial : String := "ball"
  skin : Bool := false
  skinsubgrid : ℕ := 0
  addShear : Bool := false
  addTwist : Bool := false
  addStretch : Bool := false
  addParticle : Bool := false
  userParticleJoints : List MJoint := []
  defDamping : ℚ := 0
  defArmature : ℚ := 0
  defFrictionloss : ℚ := 0
  dim : ℕ := 0

inductive JointType
  | free | ball | slide | hinge
deriving DecidableEq

structure MJoint where
  name : String := ""
  jtype : JointType
  axis0 : ℚ := 0
  axis1 : ℚ := 0
  axis2 : ℚ := 0
  damping : ℚ := 0
  armature : ℚ := 0
  frictionloss : ℚ := 0

structure MTendon where
  name : String
  wrap1 : String
  wrap2 : String

inductive EqType
  | connect | joint | tendon
deriving DecidableEq

structure MEquality where
  etype : EqType
  name1 : String := ""
  name2 : String := ""

/-! ## Grid builder (`MakeGrid`) -/

/-- Consecutive coordinate pairs of the flat `pin` vector (read as
`(pin[ip], pin[ip+1])` for `ip = 0, 2, 4, ...`). -/
def pinPairs : List ℤ → List (ℤ × ℤ)
  | a :: b :: rest => (a, b) :: pinPairs rest
  | _ => []

/-- The pin scan of `MakeGrid`: cell `(ix,iy)` is skipped iff some pin pair equals it. -/
def pinnedCell (pin : List ℤ) (ix iy : ℕ) : Bool :=
  (pinPairs pin).any fun p => p.1 == (ix : ℤ) && p.2 == (iy : ℤ)

theorem pinnedCell_iff (pin : List ℤ) (ix iy : ℕ) :
    pinnedCell pin ix iy = true ↔ ((ix : ℤ), (iy : ℤ)) ∈ pinPairs pin := by
  rw [pinnedCell, List.any_eq_true]
  constructor
  · rintro ⟨p, hp, hb⟩
    rw [Bool.and_eq_true, beq_iff_eq, beq_iff_eq] at hb
    have : p = ((ix : ℤ), (iy : ℤ)) := Prod.ext_iff.mpr ⟨hb.1, hb.2⟩
    rwa [this] at hp
  · intro hmem
    exact ⟨_, hmem, by simp⟩

structure GridBody where
  name : String
  pos0 : ℚ
  pos1 : ℚ
  pos2 : ℚ
  geomName : String
  siteName : String
  joints : List MJoint

/-- One sliding joint of an unpinned grid cell: `"%sJ%d_%d_%d"`, slide type, axis `eᵢ`. -/
def gridJoint (s : CSpec) (i ix iy : ℕ) : MJoint :=
  { name := fmt3 s.pfx "J" i ix iy
    jtype := .slide
    axis0 := if i = 0 then 1 else 0
    axis1 := if i = 1 then 1 else 0
    axis2 := if i = 2 then 1 else 0 }

/-- Shared site-name format `"%sS%d_%d"`. -/
def gridSiteName (s : CSpec) (ix iy : ℕ) : String := fmt2 s.pfx "S" ix iy

/-- One grid cell: body `"%sB%d_%d"` at the lattice position, a sphere geom
`"%sG%d_%d"`, a site `"%sS%d_%d"`, and (unless the cell is pinned) three sliding
joints. -/
def gridBody (s : CSpec) (ix iy : ℕ) : GridBody :=
  { name := fmt2 s.pfx "B" ix iy
    pos0 := s.offset0 + s.spacing * ((ix : ℚ) - 0.5 * (s.count0 : ℚ))
    pos1 := s.offset1 + s.spacing * ((iy : ℚ) - 0.5 * (s.count1 : ℚ))
    pos2 := s.offset2
    geomName := fmt2 s.pfx "G" ix iy
    siteName := gridSiteName s ix iy
    joints := if pinnedCell s.pin ix iy then []
              else (List.range 3).map fun i => gridJoint s i ix iy }

def makeGridBodies (s : CSpec) : List GridBody :=
  (enum2 s.count0 s.count1).map fun q => gridBody s q.1 q.2

/-- Loop indices `(i, ix, iy)` of the main-tendon loop:
`for i<2 { for ix<count0-(i==0) { for iy<count1-(i==1) } }`. -/
def gridMainTriples (s : CSpec) : List (ℕ × ℕ × ℕ) :=
  (List.range 2).flatMap fun i =>
    (enum2 (s.count0 - (if i = 0 then 1 else 0)) (s.count1 - (if i = 1 then 1 else 0))).map
      fun q => (i, q.1, q.2)

/-- The main tendon for loop index `(i, ix, iy)`: named `"%sT%d_%d_%d"`, wrapping the
sites of cells `(ix,iy)` and `(ix+(i==0), iy+(i==1))`. -/
def gridMainTendon (s : CSpec) (t : ℕ × ℕ × ℕ) : MTendon :=
  { name := fmt3 s.pfx "T" t.1 t.2.1 t.2.2
    wrap1 := gridSiteName s t.2.1 t.2.2
    wrap2 := gridSiteName s (t.2.1 + (if t.1 = 0 then 1 else 0))
                           (t.2.2 + (if t.1 = 1 then 1 else 0)) }

def makeGridTendons (s : CSpec) : List MTendon :=
  (gridMainTriples s).map (gridMainTendon s)

/-- The `TENDON`-typed equality constraint added right after each main tendon,
with `name1` set to that tendon's name. -/
def makeGridMainEqualities (s : CSpec) : List MEquality :=
  (gridMainTriples s).map fun t => { etype := .tendon, name1 := (gridMainTendon s t).name }

/-- Shear tendon `"%sTS%d_%d"` wrapping sites `(ix,iy)` and `(ix+1,iy+1)` (`MakeShear`). -/
def shearTendon (s : CSpec) (q : ℕ × ℕ) : MTendon :=
  { name := fmt2 s.pfx "TS" q.1 q.2
    wrap1 := gridSiteName s q.1 q.2
    wrap2 := gridSiteName s (q.1 + 1) (q.2 + 1) }

def makeShearTendons (s : CSpec) : List MTendon :=
  (enum2 (s.count0 - 1) (s.count1 - 1)).map (shearTendon s)

theorem nodup_gridMainTriples (s : CSpec) : (gridMainTriples s).Nodup := by
  unfold gridMainTriples
  rw [show List.range 2 = [0, 1] from rfl]
  simp only [List.flatMap_cons, List.flatMap_nil, List.append_nil]
  have hmap : ∀ (i n m : ℕ),
      ((enum2 n m).map fun q => (i, q.1, q.2)).Nodup := by
    intro i n m
    refine (nodup_enum2 n m).map ?_
    intro a b hab
    simp only [Prod.mk.injEq] at hab
    exact Prod.ext_iff.mpr ⟨hab.2.1, hab.2.2⟩
  refine List.Nodup.append (hmap 0 _ _) (hmap 1 _ _) ?_
  intro t ht0 ht1
  obtain ⟨a, -, rfl⟩ := List.mem_map.mp ht0
  obtain ⟨b, -, hb⟩ := List.mem_map.mp ht1
  exact absurd ((Prod.mk.injEq ..).mp hb).1 (by norm_num)

theorem mem_gridMainTriples {s : CSpec} {t : ℕ × ℕ × ℕ} :
    t ∈ gridMainTriples s ↔
      t.1 < 2 ∧ t.2.1 < s.count0 - (if t.1 = 0 then 1 else 0) ∧
        t.2.2 < s.count1 - (if t.1 = 1 then 1 else 0) := by
  obtain ⟨i, ix, iy⟩ := t
  simp only [gridMainTriples, List.mem_flatMap, List.mem_map, List.mem_range]
  constructor
  · rintro ⟨a, ha, q, hq, hqe⟩
    obtain ⟨rfl, rfl, rfl⟩ : a = i ∧ q.1 = ix ∧ q.2 = iy := by
      have := (Prod.mk.injEq ..).mp hqe
      exact ⟨this.1, ((Prod.mk.injEq ..).mp this.2).1, ((Prod.mk.injEq ..).mp this.2).2⟩
    exact ⟨ha, (mem_enum2.mp hq).1, (mem_enum2.mp hq).2⟩
  · rintro ⟨hi, hx, hy⟩
    exact ⟨i, hi, (ix, iy), mem_enum2.mpr ⟨hx, hy⟩, rfl⟩

/-- **C2.** For every grid composite with `count[0]=R`, `count[1]=C` and an empty pin
list, `MakeGrid` creates exactly `R*(C-1) + C*(R-1)` main-axis tendons, and for each
of them exactly one `TENDON`-typed equality constraint whose `name1` equals that
tendon's name. -/
theorem C2_grid_main_tendon_equality (s : CSpec) (hpin : s.pin = []) :
    (makeGridTendons s).length = s.count0 * (s.count1 - 1) + s.count1 * (s.count0 - 1) ∧
    ∀ t ∈ makeGridTendons s,
      ((makeGridMainEqualities s).filter
        (fun e => e.etype == EqType.tendon && e.name1 == t.name)).length = 1 := by
  constructor
  · unfold makeGridTendons gridMainTriples
    rw [show List.range 2 = [0, 1] from rfl]
    simp only [List.flatMap_cons, List.flatMap_nil, List.append_nil, List.map_append,
      List.length_append, List.length_map, length_enum2]
    norm_num [Nat.mul_comm]
    ring_nf
  · intro t ht
    obtain ⟨tr, htr, rfl⟩ := List.mem_map.mp ht
    refine filter_map_count_one _ _ (nodup_gridMainTriples s) htr ?_
    intro x hx
    simp only [Bool.and_eq_true, beq_iff_eq]
    constructor
    · rintro ⟨-, hname⟩
      have h3 := fmt3_inj hname
      obtain ⟨i, ix, iy⟩ := x
      obtain ⟨i', ix', iy'⟩ := tr
      exact Prod.ext_iff.mpr ⟨h3.1, Prod.ext_iff.mpr ⟨h3.2.1, h3.2.2⟩⟩
    · rintro rfl
      exact ⟨trivial, rfl⟩

/-- **C4.** For every grid composite, a lattice cell whose coordinate pair appears in
the pin list receives zero generated joints, and every other cell receives exactly 3
sliding joints, one along each coordinate axis. -/
theorem C4_grid_pinned_cells (s : CSpec) (ix iy : ℕ)
    (hx : ix < s.count0) (hy : iy < s.count1) :
    gridBody s ix iy ∈ makeGridBodies s ∧
    (((ix : ℤ), (iy : ℤ)) ∈ pinPairs s.pin → (gridBody s ix iy).joints = []) ∧
    (((ix : ℤ), (iy : ℤ)) ∉ pinPairs s.pin →
      (gridBody s ix iy).joints.length = 3 ∧
      (gridBody s ix iy).joints.map (fun j => j.jtype) =
        [JointType.slide, JointType.slide, JointType.slide] ∧
      (gridBody s ix iy).joints.map (fun j => (j.axis0, j.axis1, j.axis2)) =
        [(1, 0, 0), (0, 1, 0), (0, 0, 1)]) := by
  refine ⟨?_, ?_, ?_⟩
  · exact List.mem_map.mpr ⟨(ix, iy), mem_enum2.mpr ⟨hx, hy⟩, rfl⟩
  · intro hpin
    have hp : pinnedCell s.pin ix iy = true := (pinnedCell_iff ..).mpr hpin
    simp [gridBody, hp]
  · intro hpin
    have hp : pinnedCell s.pin ix iy = false := by
      cases h : pinnedCell s.pin ix iy
      · rfl
      · exact absurd ((pinnedCell_iff ..).mp h) hpin
    refine ⟨?_, ?_, ?_⟩ <;>
      simp [gridBody, hp, gridJoint, List.range_succ]

/-- **C10.** Every grid lattice cell — pinned or not — receives exactly one body, one
geom and one named site; every site name referenced by a generated tendon wrap
(main-axis or shear) resolves to the site of an existing generated body. -/
theorem C10_grid_site_resolution (s : CSpec) :
    (makeGridBodies s).length = s.count0 * s.count1 ∧
    (∀ ix < s.count0, ∀ iy < s.count1,
      ((makeGridBodies s).filter (fun b => b.name == fmt2 s.pfx "B" ix iy)).length = 1 ∧
      (gridBody s ix iy).geomName = fmt2 s.pfx "G" ix iy ∧
      (gridBody s ix iy).siteName = gridSiteName s ix iy) ∧
    (∀ t ∈ makeGridTendons s ++ (if s.addShear then makeShearTendons s else []),
      t.wrap1 ∈ (makeGridBodies s).map (fun b => b.siteName) ∧
      t.wrap2 ∈ (makeGridBodies s).map (fun b => b.siteName)) := by
  have hsite : ∀ ix < s.count0, ∀ iy < s.count1,
      gridSiteName s ix iy ∈ (makeGridBodies s).map (fun b => b.siteName) := by
    intro ix hx iy hy
    refine List.mem_map.mpr ⟨gridBody s ix iy, List.mem_map.mpr ⟨(ix, iy), ?_, rfl⟩, rfl⟩
    exact (@mem_enum2 s.count0 s.count1 (ix, iy)).mpr ⟨hx, hy⟩
  refine ⟨?_, ?_, ?_⟩
  · rw [makeGridBodies, List.length_map, length_enum2]
  · intro ix hx iy hy
    refine ⟨?_, rfl, rfl⟩
    refine filter_map_count_one _ _ (nodup_enum2 ..)
      ((@mem_enum2 s.count0 s.count1 (ix, iy)).mpr ⟨hx, hy⟩) ?_
    intro q hq
    rw [beq_iff_eq]
    constructor
    · intro hname
      have h2 := fmt2_inj hname
      exact Prod.ext_iff.mpr ⟨h2.1, h2.2⟩
    · rintro rfl; rfl
  · intro t ht
    rcases List.mem_append.mp ht with hmain | hshear
    · obtain ⟨⟨i, ix, iy⟩, htr, rfl⟩ := List.mem_map.mp hmain
      have hb := mem_gridMainTriples.mp htr
      simp only at hb
      obtain ⟨hi, hxb, hyb⟩ := hb
      interval_cases i
      · norm_num at hxb hyb
        exact ⟨hsite ix (by omega) iy (by omega),
               hsite (ix + 1) (by omega) iy (by omega)⟩
      · norm_num at hxb hyb
        exact ⟨hsite ix (by omega) iy (by omega),
               hsite ix (by omega) (iy + 1) (by omega)⟩
    · rcases hsh : s.addShear with _ | _
      · rw [hsh] at hshear; simp at hshear
      · rw [hsh, if_pos rfl] at hshear
        obtain ⟨⟨ix, iy⟩, hq, rfl⟩ := List.mem_map.mp hshear
        have hb := mem_enum2.mp hq
        exact ⟨hsite ix (by omega) iy (by omega),
               hsite (ix + 1) (by omega) (iy + 1) (by omega)⟩

/-! ## Particle builder (`MakeParticle`), lattice path -/

/-- Triple grouping of a flat coordinate vector (`uservert[3i..3i+2]`). -/
def group3 : List ℚ → List (ℚ × ℚ × ℚ)
  | x :: y :: z :: r => (x, y, z) :: group3 r
  | _ => []

/-- The vertex list `MakeParticle` works from: the generated lattice
`spacing*(i - 0.5*count)` per axis in `(ix, iy, iz)` loop order when `uservert` is
empty, else the user-supplied vertices. -/
def particleVerts (s : CSpec) : List (ℚ × ℚ × ℚ) :=
  if s.uservert = [] then
    (enum3 s.count0 s.count1 s.count2).map fun t =>
      (s.spacing * ((t.1 : ℚ) - 0.5 * (s.count0 : ℚ)),
       s.spacing * ((t.2.1 : ℚ) - 0.5 * (s.count1 : ℚ)),
       s.spacing * ((t.2.2 : ℚ) - 0.5 * (s.count2 : ℚ)))
  else group3 s.uservert

/-- The `username` list: `"%sB%d_%d_%d"` per lattice point, filled only on the
generated-lattice path. -/
def particleNames (s : CSpec) : List String :=
  if s.uservert = [] then
    (enum3 s.count0 s.count1 s.count2).map fun t => fmt3 s.pfx "B" t.1 t.2.1 t.2.2
  else []

structure PBody where
  name : String
  pos0 : ℚ
  pos1 : ℚ
  pos2 : ℚ
  joints : List MJoint
  siteName : String

/-- The three sliding joints a particle body receives when no user-defined particle
joints were added. -/
def particleSliders : List MJoint :=
  (List.range 3).map fun i =>
    { jtype := .slide
      axis0 := if i = 0 then 1 else 0
      axis1 := if i = 1 then 1 else 0
      axis2 := if i = 2 then 1 else 0 }

/-- Body `i` of `MakeParticle`: named `username[i]` when `username` is nonempty
(else `"%sB%d"`), positioned at `offset + uservert[3i..3i+2]`, with sliding joints
(or the user particle joints), and site `"%sS%d"`. -/
def particleBody (s : CSpec) (i : ℕ) : PBody :=
  { name := if particleNames s = [] then fmt1 s.pfx "B" i else (particleNames s).getD i ""
    pos0 := s.offset0 + ((particleVerts s).getD i (0, 0, 0)).1
    pos1 := s.offset1 + ((particleVerts s).getD i (0, 0, 0)).2.1
    pos2 := s.offset2 + ((particleVerts s).getD i (0, 0, 0)).2.2
    joints := if s.addParticle then s.userParticleJoints else particleSliders
    siteName := fmt1 s.pfx "S" i }

def makeParticleBodies (s : CSpec) : List PBody :=
  (List.range (particleVerts s).length).map fun i => particleBody s i

/-- Reindexing a `for i < n` loop whose body reads element `i` of two lists derived
from a common base list back into a single traversal of the base list. -/
theorem range_map_getD_pair {α β γ δ : Type} (base : List α) (f : α → β) (g : α → γ)
    (db : β) (dg : γ) (H : β → γ → δ) :
    (List.range base.length).map
      (fun i => H ((base.map f).getD i db) ((base.map g).getD i dg)) =
      base.map (fun a => H (f a) (g a)) := by
  induction base with
  | nil => rfl
  | cons a t ih =>
      have hstep : (List.range (a :: t).length).map
          (fun i => H (((a :: t).map f).getD i db) (((a :: t).map g).getD i dg)) =
          H (f a) (g a) :: (List.range t.length).map
            (fun i => H ((t.map f).getD i db) ((t.map g).getD i dg)) := by
        rw [List.length_cons, List.range_succ_eq_map, List.map_cons, List.map_map]
        refine congrArg₂ List.cons (by simp) ?_
        apply List.map_congr_left
        intro i hi
        simp [Function.comp, List.getD_cons_succ]
      rw [hstep, ih, List.map_cons]

/-- **C3 (amended).** For every particle composite with no explicit vertices, the
builder produces exactly `count0*count1*count2` bodies with pairwise-distinct
deterministic names, at the axis-aligned lattice positions
`offset + spacing*(index - count/2)` per axis (spacing `spacing`; the lattice is
thus centered at `offset - spacing/2` per non-singleton axis, not exactly at
`offset`). -/
theorem C3_particle_lattice (s : CSpec) (hnov : s.uservert = []) :
    (makeParticleBodies s).length = s.count0 * s.count1 * s.count2 ∧
    ((makeParticleBodies s).map (fun b => b.name)).Nodup ∧
    (makeParticleBodies s).map (fun b => (b.name, b.pos0, b.pos1, b.pos2)) =
      (enum3 s.count0 s.count1 s.count2).map (fun t =>
        (fmt3 s.pfx "B" t.1 t.2.1 t.2.2,
         s.offset0 + s.spacing * ((t.1 : ℚ) - 0.5 * (s.count0 : ℚ)),
         s.offset1 + s.spacing * ((t.2.1 : ℚ) - 0.5 * (s.count1 : ℚ)),
         s.offset2 + s.spacing * ((t.2.2 : ℚ) - 0.5 * (s.count2 : ℚ)))) := by
  have h1 : particleVerts s = (enum3 s.count0 s.count1 s.count2).map (fun t =>
      (s.spacing * ((t.1 : ℚ) - 0.5 * (s.count0 : ℚ)),
       s.spacing * ((t.2.1 : ℚ) - 0.5 * (s.count1 : ℚ)),
       s.spacing * ((t.2.2 : ℚ) - 0.5 * (s.count2 : ℚ)))) := by
    rw [particleVerts, if_pos hnov]
  have h2 : particleNames s = (enum3 s.count0 s.count1 s.count2).map (fun t =>
      fmt3 s.pfx "B" t.1 t.2.1 t.2.2) := by
    rw [particleNames, if_pos hnov]
  have hcorr : (makeParticleBodies s).map (fun b => (b.name, b.pos0, b.pos1, b.pos2)) =
      (enum3 s.count0 s.count1 s.count2).map (fun t =>
        (fmt3 s.pfx "B" t.1 t.2.1 t.2.2,
         s.offset0 + s.spacing * ((t.1 : ℚ) - 0.5 * (s.count0 : ℚ)),
         s.offset1 + s.spacing * ((t.2.1 : ℚ) - 0.5 * (s.count1 : ℚ)),
         s.offset2 + s.spacing * ((t.2.2 : ℚ) - 0.5 * (s.count2 : ℚ)))) := by
    by_cases hemp : enum3 s.count0 s.count1 s.count2 = []
    · simp [makeParticleBodies, h1, hemp]
    · have hne : particleNames s ≠ [] := by
        rw [h2]
        simpa using hemp
      rw [makeParticleBodies, List.map_map]
      have hkey := range_map_getD_pair (enum3 s.count0 s.count1 s.count2)
        (fun t => fmt3 s.pfx "B" t.1 t.2.1 t.2.2)
        (fun t => (s.spacing * ((t.1 : ℚ) - 0.5 * (s.count0 : ℚ)),
                   s.spacing * ((t.2.1 : ℚ) - 0.5 * (s.count1 : ℚ)),
                   s.spacing * ((t.2.2 : ℚ) - 0.5 * (s.count2 : ℚ))))
        "" ((0 : ℚ), (0 : ℚ), (0 : ℚ))
        (fun n v => (n, s.offset0 + v.1, s.offset1 + v.2.1, s.offset2 + v.2.2))
      rw [← hkey]
      have hlen : (particleVerts s).length = (enum3 s.count0 s.count1 s.count2).length := by
        rw [h1, List.length_map]
      rw [hlen]
      apply List.map_congr_left
      intro i hi
      simp only [Function.comp, particleBody, h1, h2]
      simp
      intro hcontra
      exact absurd hcontra hemp
  refine ⟨?_, ?_, hcorr⟩
  · rw [makeParticleBodies, List.length_map, List.length_range, particleVerts, if_pos hnov,
      List.length_map, length_enum3]
  · have hnames : (makeParticleBodies s).map (fun b => b.name) =
        (enum3 s.count0 s.count1 s.count2).map (fun t => fmt3 s.pfx "B" t.1 t.2.1 t.2.2) := by
      have hfst := congrArg (List.map (fun x : String × ℚ × ℚ × ℚ => x.1)) hcorr
      simpa [List.map_map, Function.comp] using hfst
    rw [hnames]
    refine (nodup_enum3 ..).map ?_
    intro a b hab
    have h3 := fmt3_inj hab
    exact Prod.ext_iff.mpr ⟨h3.1, Prod.ext_iff.mpr ⟨h3.2.1, h3.2.2⟩⟩

/-- **C3 witness**: the amended lattice statement evaluated on a concrete
`2×1×1` particle composite. -/
theorem C3_particle_lattice_witness :
    (makeParticleBodies { count0 := 2, spacing := 1 }).length = 2 * 1 * 1 ∧
    ((makeParticleBodies { count0 := 2, spacing := 1 }).map (fun b => b.name)).Nodup ∧
    (makeParticleBodies { count0 := 2, spacing := 1 }).map
        (fun b => (b.name, b.pos0, b.pos1, b.pos2)) =
      (enum3 2 1 1).map (fun t =>
        (fmt3 "" "B" t.1 t.2.1 t.2.2,
         0 + 1 * ((t.1 : ℚ) - 0.5 * ((2 : ℕ) : ℚ)),
         0 + 1 * ((t.2.1 : ℚ) - 0.5 * ((1 : ℕ) : ℚ)),
         0 + 1 * ((t.2.2 : ℚ) - 0.5 * ((1 : ℕ) : ℚ)))) :=
  C3_particle_lattice { count0 := 2, spacing := 1 } rfl

/-- **C3 counterexample**: the claim's "lattice centered at `offset`" fails.  For a
`2×1×1` particle composite with `spacing = 1` and `offset = 0` the generated
x-positions are `[-1, 0]`, whose center `-1/2` differs from `offset0 = 0`. -/
theorem C3_particle_center_counterexample :
    (makeParticleBodies { count0 := 2, spacing := 1 }).map (fun b => b.pos0) = [-1, 0] ∧
    ((makeParticleBodies { count0 := 2, spacing := 1 }).map (fun b => b.pos0)).sum /
      (((makeParticleBodies { count0 := 2, spacing := 1 }).length : ℚ)) ≠
      CSpec.offset0 { count0 := 2, spacing := 1 } := by
  have hx : (makeParticleBodies { count0 := 2, spacing := 1 }).map (fun b => b.pos0) =
      [-1, 0] := by
    norm_num [makeParticleBodies, particleBody, particleVerts, particleNames, enum3, enum2,
      List.range_succ]
  refine ⟨hx, ?_⟩
  rw [hx]
  norm_num [makeParticleBodies, particleVerts, enum3, enum2, List.range_succ]

/-- **C2 witness**: the tendon/equality correspondence evaluated on a concrete 3×3
grid with no pins. -/
theorem C2_grid_main_tendon_equality_witness :
    (makeGridTendons { ctype := .grid, count0 := 3, count1 := 3 }).length =
      3 * (3 - 1) + 3 * (3 - 1) ∧
    ∀ t ∈ makeGridTendons { ctype := .grid, count0 := 3, count1 := 3 },
      ((makeGridMainEqualities { ctype := .grid, count0 := 3, count1 := 3 }).filter
        (fun e => e.etype == EqType.tendon && e.name1 == t.name)).length = 1 :=
  C2_grid_main_tendon_equality { ctype := .grid, count0 := 3, count1 := 3 } rfl

/-- **C4 witness**: on a 2×2 grid with pin `(0,0)`, the pinned cell gets no joints
and an unpinned cell gets 3. -/
theorem C4_grid_pinned_cells_witness :
    (gridBody { ctype := .grid, count0 := 2, count1 := 2, pin := [0, 0] } 0 0).joints = [] ∧
    (gridBody { ctype := .grid, count0 := 2, count1 := 2, pin := [0, 0] } 1 0).joints.length = 3 :=
  ⟨(C4_grid_pinned_cells { ctype := .grid, count0 := 2, count1 := 2, pin := [0, 0] } 0 0
      (by decide) (by decide)).2.1 (by decide),
   ((C4_grid_pinned_cells { ctype := .grid, count0 := 2, count1 := 2, pin := [0, 0] } 1 0
      (by decide) (by decide)).2.2 (by decide)).1⟩

/-- **C10 witness**: body count on a concrete 3×3 grid. -/
theorem C10_grid_site_resolution_witness :
    (makeGridBodies { ctype := .grid, count0 := 3, count1 := 3 }).length = 3 * 3 :=
  (C10_grid_site_resolution { ctype := .grid, count0 := 3, count1 := 3 }).1

/-! ## Cable builder (`MakeCable` / `AddCableBody`).

The segment frame (`mju_updateFrame`, a parallel-transport update) lives in
`engine/engine_util_misc.c`, outside this repository slice, and segment poses are
therefore not modelled; the per-segment naming, joint, site and contact-exclusion
structure below is taken directly from `AddCableBody`. -/

structure CableBody where
  name : String
  joints : List MJoint
  hasEndSite : Bool
  excludeNext : Bool

/-- Name of cable segment body `ix` (`"%sB_first"`, `"%sB_last"`, `"%sB_%d"`). -/
def cableBodyName (s : CSpec) (ix : ℕ) : String :=
  if ix = 0 then s.pfx ++ "B_first"
  else if ix = s.count0 - 2 then s.pfx ++ "B_last"
  else s.pfx ++ "B_" ++ dec ix

/-- Name of the curvature joint of segment `ix`. -/
def cableJointName (s : CSpec) (ix : ℕ) : String :=
  if ix = 0 then s.pfx ++ "J_first"
  else if ix = s.count0 - 2 then s.pfx ++ "J_last"
  else s.pfx ++ "J_" ++ dec ix

/-- The curvature joint of `AddCableBody`: added unless this is the first segment
and `initial = "none"`; a free joint at the first segment when `initial = "free"`
(with damping, armature and frictionloss forced to 0), a ball joint otherwise. -/
def cableJoints (s : CSpec) (ix : ℕ) : List MJoint :=
  if ix ≠ 0 ∨ s.initial ≠ "none" then
    [{ name := cableJointName s ix
       jtype := if ix = 0 ∧ s.initial = "free" then JointType.free else JointType.ball
       damping := if ix = 0 ∧ s.initial = "free" then 0 else s.defDamping
       armature := if ix = 0 ∧ s.initial = "free" then 0 else s.defArmature
       frictionloss := if ix = 0 ∧ s.initial = "free" then 0 else s.defFrictionloss }]
  else []

def cableBody (s : CSpec) (ix : ℕ) : CableBody :=
  { name := cableBodyName s ix
    joints := cableJoints s ix
    hasEndSite := (ix == 0) || (ix == s.count0 - 2)
    excludeNext := !(ix == s.count0 - 2) }

/-- The segment bodies of `MakeCable`: one per `ix < count0 - 1`. -/
def makeCableBodies (s : CSpec) : List CableBody :=
  (List.range (s.count0 - 1)).map fun ix => cableBody s ix

/-- **C5.** Each cable segment body except the very first receives exactly one ball
joint; the first receives no joint when `initial = "none"`, a free joint with
damping, armature and frictionloss set to 0 when `initial = "free"`, and a ball
joint otherwise. -/
theorem C5_cable_joints (s : CSpec) (ix : ℕ) (hix : ix < s.count0 - 1) :
    cableBody s ix ∈ makeCableBodies s ∧
    (0 < ix →
      (cableBody s ix).joints.length = 1 ∧
      ∀ j ∈ (cableBody s ix).joints, j.jtype = JointType.ball) ∧
    (ix = 0 →
      (s.initial = "none" → (cableBody s ix).joints = []) ∧
      (s.initial = "free" →
        (cableBody s ix).joints.length = 1 ∧
        ∀ j ∈ (cableBody s ix).joints,
          j.jtype = JointType.free ∧ j.damping = 0 ∧ j.armature = 0 ∧ j.frictionloss = 0) ∧
      (s.initial ≠ "none" → s.initial ≠ "free" →
        (cableBody s ix).joints.length = 1 ∧
        ∀ j ∈ (cableBody s ix).joints, j.jtype = JointType.ball)) := by
  refine ⟨List.mem_map.mpr ⟨ix, List.mem_range.mpr hix, rfl⟩, ?_, ?_⟩
  · intro hpos
    have hne : ix ≠ 0 := Nat.pos_iff_ne_zero.mp hpos
    constructor
    · simp [cableBody, cableJoints, hne]
    · intro j hj
      simp only [cableBody, cableJoints, if_pos (Or.inl hne), List.mem_singleton] at hj
      subst hj
      simp [hne]
  · rintro rfl
    refine ⟨?_, ?_, ?_⟩
    · intro hnone
      simp [cableBody, cableJoints, hnone]
    · intro hfree
      constructor
      · simp [cableBody, cableJoints, hfree]
      · intro j hj
        simp only [cableBody, cableJoints, hfree] at hj
        simp at hj
        subst hj
        simp [hfree]
    · intro hnone hfree
      constructor
      · simp [cableBody, cableJoints, hnone]
      · intro j hj
        simp only [cableBody, cableJoints] at hj
        rw [if_pos (Or.inr hnone)] at hj
        simp at hj
        subst hj
        simp [hfree]

/-- **C5 witness**: on a 4-segment cable with `initial = "free"`, the first body
gets one zeroed free joint and body 1 gets one ball joint; with
`initial = "none"`, the first body gets no joint. -/
theorem C5_cable_joints_witness :
    ((cableBody { ctype := .cable, count0 := 5, initial := "free" } 0).joints.length = 1 ∧
      ∀ j ∈ (cableBody { ctype := .cable, count0 := 5, initial := "free" } 0).joints,
        j.jtype = JointType.free ∧ j.damping = 0 ∧ j.armature = 0 ∧ j.frictionloss = 0) ∧
    ((cableBody { ctype := .cable, count0 := 5, initial := "free" } 1).joints.length = 1 ∧
      ∀ j ∈ (cableBody { ctype := .cable, count0 := 5, initial := "free" } 1).joints,
        j.jtype = JointType.ball) ∧
    (cableBody { ctype := .cable, count0 := 5, initial := "none" } 0).joints = [] :=
  ⟨((C5_cable_joints { ctype := .cable, count0 := 5, initial := "free" } 0
      (by decide)).2.2 rfl).2.1 rfl,
   (C5_cable_joints { ctype := .cable, count0 := 5, initial := "free" } 1
      (by decide)).2.1 (by decide),
   ((C5_cable_joints { ctype := .cable, count0 := 5, initial := "none" } 0
      (by decide)).2.2 rfl).1 rfl⟩

/-! ## Validation (`mjCComposite::Make`, lines before dispatch) -/

def mjMINVAL : ℚ := 1e-15

/-- The dimensionality/singleton-order loop: `first` is set once a singleton axis is
seen; a non-singleton axis after that is an error, otherwise `dim` counts the
non-singleton axes. -/
def singletonCheck : List ℕ → Bool → ℕ → Except String ℕ
  | [], _, d => .ok d
  | c :: r, first, d =>
      if c = 1 then singletonCheck r true d
      else if first then .error "Singleton counts must come last"
      else singletonCheck r first (d + 1)

/-- The precondition chain of `Make`, in source order, returning the spec with
`count` rewritten from `uservert` and `dim` computed. -/
def validate (s : CSpec) : Except String CSpec :=
  if (s.geomtype ≠ .sphere ∧ s.geomtype ≠ .capsule ∧ s.geomtype ≠ .ellipsoid) ∧
      s.ctype ≠ .particle ∧ s.ctype ≠ .cable then
    .error "Composite geom type must be sphere, capsule or ellipsoid"
  else if s.pin.length % 2 ≠ 0 then
    .error "Pin coordinate number of must be multiple of 2"
  else if s.count0 < 1 ∨ s.count1 < 1 ∨ s.count2 < 1 then
    .error "Positive counts expected in composite"
  else if (s.ctype = .grid ∨ (s.ctype = .particle ∧ s.uservert = [])) ∧
      s.spacing < max s.geomsize0 (max s.geomsize1 s.geomsize2) then
    .error "Spacing must be larger than geometry size"
  else if s.size0 * s.size0 + s.size1 * s.size1 + s.size2 * s.size2 < mjMINVAL ∧
      s.uservert = [] then
    .error "Positive spacing or length expected in composite"
  else if s.spacing ≠ 0 ∧ s.ctype = .cable then
    .error "Spacing is not supported by cable composite"
  else if s.uservert ≠ [] ∧ 1 < s.count0 then
    .error "Either vertex or count can be specified, not both"
  else
    let s1 := if s.uservert = [] then s
              else { s with count0 := s.uservert.length / 3, count1 := 1 }
    match singletonCheck [s1.count0, s1.count1, s1.count2] false 0 with
    | .error e => .error e
    | .ok d =>
        if s1.skin ∧ 0 < s1.skinsubgrid ∧ s1.ctype ≠ .cable ∧
            (s1.count0 < 3 ∨ s1.count1 < 3) then
          .error "At least 3x3 required for skin subgrid"
        else .ok { s1 with dim := d }

theorem validate_ctype {s s1 : CSpec} (h : validate s = .ok s1) : s1.ctype = s.ctype := by
  unfold validate at h
  split at h; · exact absurd h (by simp)
  split at h; · exact absurd h (by simp)
  split at h; · exact absurd h (by simp)
  split at h; · exact absurd h (by simp)
  split at h; · exact absurd h (by simp)
  split at h; · exact absurd h (by simp)
  split at h; · exact absurd h (by simp)
  by_cases hv : s.uservert = []
  · rw [if_pos hv] at h
    simp only [] at h
    split at h
    · exact absurd h (by simp)
    · split at h
      · exact absurd h (by simp)
      · obtain rfl := (Except.ok.inj h).symm
        rfl
  · rw [if_neg hv] at h
    simp only [] at h
    split at h
    · exact absurd h (by simp)
    · split at h
      · exact absurd h (by simp)
      · obtain rfl := (Except.ok.inj h).symm
        rfl

/-! ## Rope/loop builder (`MakeRope` / `AddRopeBody`) -/

structure RopeBody where
  name : String
  geomName : String
  joints : List MJoint

/-- The joints of a non-root rope body `ix1`: two bending hinges `"%sJ%d_%d"` about
the axes orthogonal to the segment, plus an optional twist hinge `"%sJT%d"` and
stretch slider `"%sJS%d"`. -/
def ropeJoints (s : CSpec) (ix1 : ℕ) : List MJoint :=
  ((List.range 2).map fun i =>
    { name := fmt2 s.pfx "J" i ix1
      jtype := JointType.hinge
      axis0 := (0 : ℚ)
      axis1 := if i = 0 then 1 else 0
      axis2 := if i = 1 then 1 else 0 }) ++
  (if s.addTwist then
    [{ name := fmt1 s.pfx "JT" ix1, jtype := JointType.hinge, axis0 := 1 }] else []) ++
  (if s.addStretch then
    [{ name := fmt1 s.pfx "JS" ix1, jtype := JointType.slide, axis0 := 1 }] else [])

def ropeBodyAt (s : CSpec) (ix1 : ℕ) : RopeBody :=
  { name := fmt1 s.pfx "B" ix1
    geomName := fmt1 s.pfx "G" ix1
    joints := ropeJoints s ix1 }

/-- The bodies added by `MakeRope` after the origin: rightward from `ox` to the end,
then leftward from `ox` down to 0. -/
def makeRopeBodies (s : CSpec) (ox : ℕ) : List RopeBody :=
  ((List.range' (ox + 1) (s.count0 - 1 - ox)).map (ropeBodyAt s)) ++
  ((List.range ox).reverse.map (ropeBodyAt s))

/-- `JOINT`-typed soft equality constraints of a non-root rope body. -/
def ropeEqsAt (s : CSpec) (ix1 : ℕ) : List MEquality :=
  (if s.addTwist then [{ etype := .joint, name1 := fmt1 s.pfx "JT" ix1 }] else []) ++
  (if s.addStretch then [{ etype := .joint, name1 := fmt1 s.pfx "JS" ix1 }] else [])

/-- The `CONNECT` equality stitching a loop closed. -/
def ropeLoopEqs (s : CSpec) : List MEquality :=
  if s.ctype = .loop then
    [{ etype := .connect, name1 := fmt1 s.pfx "B" 0, name2 := fmt1 s.pfx "B" (s.count0 - 1) }]
  else []

def makeRopeOut (s : CSpec) (ox : ℕ) : List RopeBody × List MEquality :=
  (makeRopeBodies s ox,
   ((List.range' (ox + 1) (s.count0 - 1 - ox)).flatMap (ropeEqsAt s)) ++
     ((List.range ox).reverse.flatMap (ropeEqsAt s)) ++ ropeLoopEqs s)

/-- The remainder of the root body name past `prefix+"B"`
(`body_name.substr(strlen(txt))`). -/
def ropeRemainder (s : CSpec) (rootName : String) : List Char :=
  rootName.data.drop (s.pfx ++ "B").data.length

/-- Model of `sscanf("%d", ...)`: skip leading whitespace, optional sign, then at
least one decimal digit; trailing characters are ignored. -/
def digitsValue (l : List Char) : ℕ := l.foldl (fun a c => 10 * a + charVal c) 0

def scanInt (l : List Char) : Option ℤ :=
  match l.dropWhile (fun c => c.isWhitespace) with
  | '-' :: r =>
      let ds := r.takeWhile (fun c => c.isDigit)
      if ds = [] then none else some (-(digitsValue ds : ℤ))
  | '+' :: r =>
      let ds := r.takeWhile (fun c => c.isDigit)
      if ds = [] then none else some ((digitsValue ds : ℤ))
  | r =>
      let ds := r.takeWhile (fun c => c.isDigit)
      if ds = [] then none else some ((digitsValue ds : ℤ))

/-- `MakeRope`: dimensionality check, then the root-body-name convention: the name
must start with `prefix + "B"`, the remainder must scan as an integer, and that
integer must lie in `[0, count0)`. -/
def makeRopeChecked (s : CSpec) (rootName : String) :
    Except String (List RopeBody × List MEquality) :=
  if s.dim ≠ 1 then .error "Rope must be one-dimensional"
  else if (s.pfx ++ "B").data.isPrefixOf rootName.data then
    match scanInt (ropeRemainder s rootName) with
    | none => .error "Root body name must contain X coordinate"
    | some ox =>
        if ox < 0 ∨ (s.count0 : ℤ) ≤ ox then
          .error "Root body coordinate out of range"
        else .ok (makeRopeOut s ox.toNat)
  else .error ((s.pfx ++ "B") ++ " must be the beginning of root body name")

/-- **C8.** For a loop composite reaching `MakeRope` (`dim = 1`): a root body name
not starting with `prefix+"B"` is rejected; a remainder that does not scan as an
integer is rejected; a scanned index outside `[0, count0)` is rejected; otherwise
all checks pass and the bodies are built. -/
theorem C8_rope_root_name (s : CSpec) (rootName : String) (hdim : s.dim = 1) :
    ((s.pfx ++ "B").data.isPrefixOf rootName.data = false →
      makeRopeChecked s rootName =
        .error ((s.pfx ++ "B") ++ " must be the beginning of root body name")) ∧
    ((s.pfx ++ "B").data.isPrefixOf rootName.data = true →
      (scanInt (ropeRemainder s rootName) = none →
        makeRopeChecked s rootName = .error "Root body name must contain X coordinate") ∧
      (∀ ox : ℤ, scanInt (ropeRemainder s rootName) = some ox →
        ((ox < 0 ∨ (s.count0 : ℤ) ≤ ox) →
          makeRopeChecked s rootName = .error "Root body coordinate out of range") ∧
        (¬(ox < 0 ∨ (s.count0 : ℤ) ≤ ox) →
          makeRopeChecked s rootName = .ok (makeRopeOut s ox.toNat)))) := by
  unfold makeRopeChecked
  rw [if_neg (by simp [hdim])]
  refine ⟨?_, ?_⟩
  · intro hpref
    rw [if_neg (by rw [hpref]; exact Bool.false_ne_true)]
  · intro hpref
    rw [if_pos hpref]
    refine ⟨?_, ?_⟩
    · intro hnone
      simp [hnone]
    · intro ox hox
      simp only [hox]
      exact ⟨fun hrange => by rw [if_pos hrange], fun hrange => by rw [if_neg hrange]⟩

/-- **C8 witness**: concrete loop composite (`count0 = 3`, `dim = 1`, empty
prefix): root name `"X1"` fails the prefix check, `"B7"` fails the range check,
and `"B1"` passes all checks. -/
theorem C8_rope_root_name_witness :
    makeRopeChecked { ctype := .loop, count0 := 3, dim := 1 } "X1" =
      .error (("" ++ "B") ++ " must be the beginning of root body name") ∧
    makeRopeChecked { ctype := .loop, count0 := 3, dim := 1 } "B7" =
      .error "Root body coordinate out of range" ∧
    makeRopeChecked { ctype := .loop, count0 := 3, dim := 1 } "B1" =
      .ok (makeRopeOut { ctype := .loop, count0 := 3, dim := 1 } ((1 : ℤ).toNat)) :=
  ⟨(C8_rope_root_name { ctype := .loop, count0 := 3, dim := 1 } "X1" rfl).1 (by decide),
   (((C8_rope_root_name { ctype := .loop, count0 := 3, dim := 1 } "B7" rfl).2
      (by decide)).2 7 (by decide)).1 (by decide),
   (((C8_rope_root_name { ctype := .loop, count0 := 3, dim := 1 } "B1" rfl).2
      (by decide)).2 1 (by decide)).2 (by decide)⟩

/-! ## Box/cylinder/ellipsoid builder (`MakeBox`).

Body positions go through `BoxProject`, whose cylinder/ellipsoid branches normalize
with a Euclidean norm (`mjuu_normvec`, irrational over `ℚ`); positions are therefore
not part of this embedding.  The boundary selection, joint/equality/tendon structure
is taken directly from `MakeBox`. -/

/-- The boundary test of the body-generation loop:
`ix==0 || ix==count0-1 || iy==0 || iy==count1-1 || iz==0 || iz==count2-1`. -/
def onBoundary (s : CSpec) (t : ℕ × ℕ × ℕ) : Bool :=
  t.1 == 0 || t.1 == s.count0 - 1 || t.2.1 == 0 || t.2.1 == s.count1 - 1 ||
  t.2.2 == 0 || t.2.2 == s.count2 - 1

/-- Lattice points that receive a body: the outside shell only. -/
def boxTriples (s : CSpec) : List (ℕ × ℕ × ℕ) :=
  (enum3 s.count0 s.count1 s.count2).filter (onBoundary s)

def boxJointName (s : CSpec) (t : ℕ × ℕ × ℕ) : String := fmt3 s.pfx "J" t.1 t.2.1 t.2.2

structure BoxBody where
  name : String
  geomName : String
  joint : MJoint

/-- One shell body: `"%sB%d_%d_%d"`, geom `"%sG%d_%d_%d"`, and a single sliding
joint `"%sJ%d_%d_%d"` along the local z-axis. -/
def boxBody (s : CSpec) (t : ℕ × ℕ × ℕ) : BoxBody :=
  { name := fmt3 s.pfx "B" t.1 t.2.1 t.2.2
    geomName := fmt3 s.pfx "G" t.1 t.2.1 t.2.2
    joint := { name := boxJointName s t, jtype := .slide, axis0 := 0, axis1 := 0, axis2 := 1 } }

def makeBoxBodies (s : CSpec) : List BoxBody := (boxTriples s).map (boxBody s)

/-- The pairwise neighbor constraints of one shell body: for each axis, the clamped
neighbor index, kept when it is on the boundary and differs from this body. -/
def boxNeighbor (s : CSpec) (t : ℕ × ℕ × ℕ) (i : ℕ) : ℕ × ℕ × ℕ :=
  (min (t.1 + (if i = 0 then 1 else 0)) (s.count0 - 1),
   min (t.2.1 + (if i = 1 then 1 else 0)) (s.count1 - 1),
   min (t.2.2 + (if i = 2 then 1 else 0)) (s.count2 - 1))

def boxNeighborEqs (s : CSpec) (t : ℕ × ℕ × ℕ) : List MEquality :=
  (List.range 3).filterMap fun i =>
    if ((boxNeighbor s t i).1 = 0 ∨ (boxNeighbor s t i).1 = s.count0 - 1 ∨
        (boxNeighbor s t i).2.1 = 0 ∨ (boxNeighbor s t i).2.1 = s.count1 - 1 ∨
        (boxNeighbor s t i).2.2 = 0 ∨ (boxNeighbor s t i).2.2 = s.count2 - 1) ∧
       (t.1 ≠ (boxNeighbor s t i).1 ∨ t.2.1 ≠ (boxNeighbor s t i).2.1 ∨
        t.2.2 ≠ (boxNeighbor s t i).2.2) then
      some { etype := .joint, name1 := boxJointName s t,
             name2 := fmt3 s.pfx "J" (boxNeighbor s t i).1 (boxNeighbor s t i).2.1
                        (boxNeighbor s t i).2.2 }
    else none

/-- Equality constraints created while processing one shell body: the `JOINT` fix
constraint naming only this body's joint, then the neighbor constraints. -/
def boxEqsAt (s : CSpec) (t : ℕ × ℕ × ℕ) : List MEquality :=
  { etype := .joint, name1 := boxJointName s t } :: boxNeighborEqs s t

/-- All equality constraints of `MakeBox`: per-body constraints in loop order, then
the single `TENDON` equality referencing the fixed tendon `"%sT"`. -/
def makeBoxEqualities (s : CSpec) : List MEquality :=
  ((boxTriples s).flatMap (boxEqsAt s)) ++ [{ etype := .tendon, name1 := s.pfx ++ "T" }]

/-- The wrap list of the single fixed tendon `"%sT"`: every shell joint with
coefficient 1, in loop order. -/
def makeBoxTendonWraps (s : CSpec) : List (String × ℚ) :=
  (boxTriples s).map fun t => (boxJointName s t, 1)

/-! ## Dispatch (`mjCComposite::Make`) -/

/-- `MakeGrid` preconditions, then the grid model. -/
def makeGridChecked (s : CSpec) :
    Except String (List GridBody × List MTendon × List MEquality) :=
  if 2 < s.dim then .error "Grid can only be 1D or 2D"
  else if s.addShear ∧ s.dim ≠ 2 then .error "Shear requires 2D grid"
  else if s.skin ∧ s.dim ≠ 2 then .error "Skin requires 2D grid"
  else .ok (makeGridBodies s,
            makeGridTendons s ++ (if s.addShear then makeShearTendons s else []),
            makeGridMainEqualities s)

/-- `MakeParticle` re-checks the spacing on the generated-lattice path. -/
def makeParticleChecked (s : CSpec) : Except String (List PBody) :=
  if s.uservert = [] ∧ s.spacing < max s.geomsize0 (max s.geomsize1 s.geomsize2) then
    .error "Spacing must be larger than geometry size"
  else .ok (makeParticleBodies s)

/-- `MakeCable` preconditions, then the cable model. -/
def makeCableChecked (s : CSpec) : Except String (List CableBody) :=
  if s.dim ≠ 1 then .error "Cable must be one-dimensional"
  else if s.geomtype ≠ .cylinder ∧ s.geomtype ≠ .capsule ∧ s.geomtype ≠ .box then
    .error "Cable geom type must be sphere, capsule or box"
  else .ok (makeCableBodies s)

/-- `MakeBox` precondition, then the shell model. -/
def makeBoxChecked (s : CSpec) :
    Except String (List BoxBody × List MEquality × List (String × ℚ)) :=
  if s.dim ≠ 3 then .error "Box and ellipsoid must be three-dimensional"
  else .ok (makeBoxBodies s, makeBoxEqualities s, makeBoxTendonWraps s)

inductive MakeOutput
  | particle (bodies : List PBody)
  | grid (bodies : List GridBody) (tendons : List MTendon) (eqs : List MEquality)
  | rope (bodies : List RopeBody) (eqs : List MEquality)
  | cable (bodies : List CableBody)
  | box (bodies : List BoxBody) (eqs : List MEquality) (wraps : List (String × ℚ))

inductive MakeResult
  | err (msg : String)
  | ok (warnings : List String) (out : MakeOutput)

def ropeDeprecatedMsg : String :=
  "The \"rope\" composite type is deprecated. Please use \"cable\" instead."

def clothDeprecatedMsg : String :=
  "The \"cloth\" composite type is deprecated. Please use \"shell\" instead."

def loopDeprecatedWarning : String :=
  "The \"loop\" composite type is deprecated. Please use \"cable\" instead."

/-- `mjCComposite::Make`: validation, then dispatch on the composite type.  `rope`
and `cloth` are rejected with deprecation errors before any entity is created;
`loop` emits a deprecation warning and is routed to `MakeRope`. -/
def Make (s : CSpec) (parentName : String) : MakeResult :=
  match validate s with
  | .error e => .err e
  | .ok s1 =>
    match s1.ctype with
    | .particle =>
        match makeParticleChecked s1 with
        | .error e => .err e
        | .ok out => .ok [] (.particle out)
    | .grid =>
        match makeGridChecked s1 with
        | .error e => .err e
        | .ok out => .ok [] (.grid out.1 out.2.1 out.2.2)
    | .rope => .err ropeDeprecatedMsg
    | .loop =>
        match makeRopeChecked s1 parentName with
        | .error e => .err e
        | .ok out => .ok [loopDeprecatedWarning] (.rope out.1 out.2)
    | .cable =>
        match makeCableChecked s1 with
        | .error e => .err e
        | .ok out => .ok [] (.cable out)
    | .cloth => .err clothDeprecatedMsg
    | .box | .cylinder | .ellipsoid =>
        match makeBoxChecked s1 with
        | .error e => .err e
        | .ok out => .ok [] (.box out.1 out.2.1 out.2.2)

/-- **C7.** `Make` on a `rope` or `cloth` composite never succeeds, and when the
composite passes validation the failure carries the deprecation message; a `loop`
composite that passes validation is routed to the rope builder with a non-fatal
deprecation warning. -/
theorem C7_deprecated_types (s : CSpec) (parentName : String) :
    ((s.ctype = .rope ∨ s.ctype = .cloth) →
      (∀ w out, Make s parentName ≠ .ok w out) ∧
      (∀ s1, validate s = .ok s1 →
        Make s parentName =
          .err (if s.ctype = .rope then ropeDeprecatedMsg else clothDeprecatedMsg))) ∧
    (s.ctype = .loop → ∀ s1, validate s = .ok s1 →
      Make s parentName =
        match makeRopeChecked s1 parentName with
        | .error e => .err e
        | .ok out => .ok [loopDeprecatedWarning] (.rope out.1 out.2)) := by
  refine ⟨?_, ?_⟩
  · intro hdep
    refine ⟨?_, ?_⟩
    · intro w out
      cases hval : validate s with
      | error e => simp [Make, hval]
      | ok s1 =>
          have hc := validate_ctype hval
          rcases hdep with h | h <;> simp [Make, hval, hc, h]
    · intro s1 hval
      have hc := validate_ctype hval
      rcases hdep with h | h <;> simp [Make, hval, hc, h]
  · intro hloop s1 hval
    have hc := validate_ctype hval
    cases hr : makeRopeChecked s1 parentName <;>
      simp [Make, hval, hc, hloop, hr]

/-- **C7 witness**: a concrete `rope` composite passing validation is rejected with
the deprecation message; a concrete `loop` composite is routed to the rope
builder's result with the deprecation warning. -/
theorem C7_deprecated_types_witness :
    Make { ctype := .rope } "x" = .err ropeDeprecatedMsg ∧
    Make { ctype := .cloth } "x" = .err clothDeprecatedMsg ∧
    Make { ctype := .loop, count0 := 3 } "B1" =
      match makeRopeChecked { ctype := .loop, count0 := 3, dim := 1 } "B1" with
      | .error e => .err e
      | .ok out => .ok [loopDeprecatedWarning] (.rope out.1 out.2) := by
  refine ⟨?_, ?_, ?_⟩
  · have h := ((C7_deprecated_types { ctype := .rope } "x").1 (Or.inl rfl)).2
      { ctype := .rope, dim := 0 }
      (by norm_num [validate, mjMINVAL, singletonCheck])
    simpa using h
  · have h := ((C7_deprecated_types { ctype := .cloth } "x").1 (Or.inr rfl)).2
      { ctype := .cloth, dim := 0 }
      (by norm_num [validate, mjMINVAL, singletonCheck])
    simpa using h
  · exact (C7_deprecated_types { ctype := .loop, count0 := 3 } "B1").2 rfl
      { ctype := .loop, count0 := 3, dim := 1 }
      (by norm_num [validate, mjMINVAL, singletonCheck])

theorem countP_flatMap {α β : Type} (l : List α) (f : α → List β) (p : β → Bool) :
    (l.flatMap f).countP p = (l.map fun a => (f a).countP p).sum := by
  induction l with
  | nil => rfl
  | cons a t ih => simp [List.flatMap_cons, List.countP_append, ih]

theorem sum_map_indicator {α : Type} [DecidableEq α] {l : List α} {t : α} {g : α → ℕ}
    (hl : l.Nodup) (ht : t ∈ l) (hg : ∀ x ∈ l, g x = if x = t then 1 else 0) :
    (l.map g).sum = 1 := by
  induction l with
  | nil => simp at ht
  | cons a r ih =>
      rw [List.map_cons, List.sum_cons]
      rcases List.mem_cons.mp ht with rfl | htr
      · have h1 : g t = 1 := by rw [hg t (List.mem_cons_self _ _)]; simp
        have h0 : (r.map g).sum = 0 := by
          apply List.sum_eq_zero
          intro x hx
          obtain ⟨y, hy, rfl⟩ := List.mem_map.mp hx
          rw [hg y (List.mem_cons_of_mem _ hy), if_neg]
          rintro rfl
          exact (List.nodup_cons.mp hl).1 hy
        rw [h1, h0]
      · have h1 : g a = 0 := by
          rw [hg a (List.mem_cons_self _ _), if_neg]
          rintro rfl
          exact (List.nodup_cons.mp hl).1 htr
        rw [h1, ih (List.nodup_cons.mp hl).2 htr
          (fun x hx => hg x (List.mem_cons_of_mem _ hx))]

theorem mem_boxTriples {s : CSpec} {t : ℕ × ℕ × ℕ} :
    t ∈ boxTriples s ↔
      (t.1 < s.count0 ∧ t.2.1 < s.count1 ∧ t.2.2 < s.count2) ∧
      (t.1 = 0 ∨ t.1 = s.count0 - 1 ∨ t.2.1 = 0 ∨ t.2.1 = s.count1 - 1 ∨
       t.2.2 = 0 ∨ t.2.2 = s.count2 - 1) := by
  rw [boxTriples, List.mem_filter]
  rw [mem_enum3]
  simp [onBoundary, or_assoc]

theorem nodup_boxTriples (s : CSpec) : (boxTriples s).Nodup :=
  (nodup_enum3 ..).filter _

theorem mem_boxNeighborEqs {s : CSpec} {t : ℕ × ℕ × ℕ} {e : MEquality}
    (he : e ∈ boxNeighborEqs s t) :
    e.etype = .joint ∧ ∃ a b c, e.name2 = fmt3 s.pfx "J" a b c := by
  unfold boxNeighborEqs at he
  obtain ⟨i, hi, hsome⟩ := List.mem_filterMap.mp he
  split at hsome
  · obtain rfl := (Option.some.inj hsome).symm
    exact ⟨rfl, _, _, _, rfl⟩
  · exact absurd hsome (by simp)

/-- The tag `"J"` makes shell joint names nonempty. -/
theorem boxJointName_ne_empty (s : CSpec) (a b c : ℕ) : fmt3 s.pfx "J" a b c ≠ "" :=
  fmt3_ne_empty s.pfx "J" a b c (by simp)

/-- **C6.** A box/cylinder/ellipsoid composite creates a child body exactly for the
boundary lattice points; each such body carries one sliding joint with exactly one
`JOINT`-typed equality constraint naming it alone; every such joint is wrapped (with
coefficient 1) by the single fixed tendon `prefix+"T"`, and exactly one
`TENDON`-typed equality constraint exists, referencing that tendon. -/
theorem C6_box_shell (s : CSpec) :
    (∀ t : ℕ × ℕ × ℕ, t ∈ boxTriples s ↔
      (t.1 < s.count0 ∧ t.2.1 < s.count1 ∧ t.2.2 < s.count2) ∧
      (t.1 = 0 ∨ t.1 = s.count0 - 1 ∨ t.2.1 = 0 ∨ t.2.1 = s.count1 - 1 ∨
       t.2.2 = 0 ∨ t.2.2 = s.count2 - 1)) ∧
    (makeBoxBodies s).map (fun b => b.name) =
      (boxTriples s).map (fun t => fmt3 s.pfx "B" t.1 t.2.1 t.2.2) ∧
    (∀ b ∈ makeBoxBodies s,
      b.joint.jtype = JointType.slide ∧
      ((makeBoxEqualities s).filter
        (fun e => e.etype == EqType.joint && e.name1 == b.joint.name &&
                  e.name2 == "")).length = 1 ∧
      (b.joint.name, (1 : ℚ)) ∈ makeBoxTendonWraps s) ∧
    ((makeBoxEqualities s).filter (fun e => e.etype == EqType.tendon)).length = 1 ∧
    (∀ e ∈ makeBoxEqualities s, e.etype = .tendon → e.name1 = s.pfx ++ "T") := by
  have hjoint : ∀ t' ∈ boxTriples s, ∀ t ∈ boxTriples s,
      ((boxEqsAt s t').countP
        (fun e => e.etype == EqType.joint && e.name1 == boxJointName s t &&
                  e.name2 == "")) = if t' = t then 1 else 0 := by
    intro t' ht' t ht
    rw [boxEqsAt, List.countP_cons]
    have hn : (boxNeighborEqs s t').countP
        (fun e => e.etype == EqType.joint && e.name1 == boxJointName s t &&
                  e.name2 == "") = 0 := by
      rw [List.countP_eq_zero]
      intro e he hp
      obtain ⟨-, a, b, c, hn2⟩ := mem_boxNeighborEqs he
      simp only [Bool.and_eq_true, beq_iff_eq] at hp
      exact boxJointName_ne_empty s a b c (hn2 ▸ hp.2)
    rw [hn]
    by_cases heq : t' = t
    · subst heq
      simp
    · have : ¬(boxJointName s t' = boxJointName s t) := by
        intro hname
        obtain ⟨h1, h2, h3⟩ := fmt3_inj hname
        exact heq (Prod.ext_iff.mpr ⟨h1, Prod.ext_iff.mpr ⟨h2, h3⟩⟩)
      simp [this, heq]
  refine ⟨fun t => mem_boxTriples, by simp [makeBoxBodies, List.map_map, Function.comp, boxBody],
    ?_, ?_, ?_⟩
  · intro b hb
    obtain ⟨t, ht, rfl⟩ := List.mem_map.mp hb
    refine ⟨rfl, ?_, List.mem_map.mpr ⟨t, ht, rfl⟩⟩
    rw [← List.countP_eq_length_filter, makeBoxEqualities, List.countP_append,
      countP_flatMap]
    have hlast : (List.countP
        (fun e => e.etype == EqType.joint && e.name1 == (boxBody s t).joint.name &&
                  e.name2 == "")
        ([{ etype := .tendon, name1 := s.pfx ++ "T" }] : List MEquality)) = 0 := by
      simp [List.countP_cons]
    rw [hlast, Nat.add_zero]
    exact sum_map_indicator (nodup_boxTriples s) ht (fun t' ht' => hjoint t' ht' t ht)
  · rw [← List.countP_eq_length_filter, makeBoxEqualities, List.countP_append,
      countP_flatMap]
    have hzero : ((boxTriples s).map
        (fun t' => (boxEqsAt s t').countP (fun e => e.etype == EqType.tendon))).sum = 0 := by
      apply List.sum_eq_zero
      intro x hx
      obtain ⟨t', ht', rfl⟩ := List.mem_map.mp hx
      rw [List.countP_eq_zero]
      intro e he
      rcases List.mem_cons.mp he with rfl | hne
      · simp
      · obtain ⟨hjt, -⟩ := mem_boxNeighborEqs hne
        simp [hjt]
    rw [hzero, Nat.zero_add]
    simp [List.countP_cons]
  · intro e he hte
    rcases List.mem_append.mp he with hfl | hlast
    · obtain ⟨t', ht', hin⟩ := List.mem_flatMap.mp hfl
      rcases List.mem_cons.mp hin with rfl | hne
      · simp at hte
      · obtain ⟨hjt, -⟩ := mem_boxNeighborEqs hne
        rw [hjt] at hte
        simp at hte
    · rw [List.mem_singleton.mp hlast]

/-- **C6 witness**: on a concrete `2×2×2` shell (every point is boundary), the
`TENDON`-typed equality is unique. -/
theorem C6_box_shell_witness :
    ((makeBoxEqualities { ctype := .box, count0 := 2, count1 := 2, count2 := 2 }).filter
      (fun e => e.etype == EqType.tendon)).length = 1 :=
  (C6_box_shell { ctype := .box, count0 := 2, count1 := 2, count2 := 2 }).2.2.2.1

/-! ## 2-D skin (`MakeSkin2` / `MakeClothBones`) at `subgrid = 0` -/

/-- The two-layer vertex sheet of `MakeSkin2`: `for i<2 { for ix { for iy } }`, one
zero vertex per iteration (positions are recomputed by the engine at bind time). -/
def skin2Verts (s : CSpec) : List (ℚ × ℚ × ℚ) :=
  (List.range 2).flatMap fun _ =>
    (enum2 s.count0 s.count1).map fun _ => ((0 : ℚ), (0 : ℚ), (0 : ℚ))

structure SkinBone where
  bodyname : String
  vertid : List ℕ
  vertweight : List ℚ

/-- `MakeClothBones`: one bone per lattice cell (grid body `"%sB%d_%d"`), binding
the cell's vertex in both layers with weight 1. -/
def clothBones (s : CSpec) : List SkinBone :=
  (enum2 s.count0 s.count1).map fun q =>
    { bodyname := if s.ctype = .grid then fmt2 s.pfx "B" q.1 q.2
                  else fmt3 s.pfx "B" q.1 q.2 0
      vertid := [q.1 * s.count1 + q.2,
                 s.count0 * s.count1 + (q.1 * s.count1 + q.2)]
      vertweight := [1, 1] }

theorem map_enc_enum2 (n m : ℕ) :
    (enum2 n m).map (fun q => q.1 * m + q.2) = List.range (n * m) := by
  induction n with
  | zero => simp [enum2]
  | succ k ih =>
      unfold enum2 at ih ⊢
      rw [List.range_succ, List.flatMap_append, List.map_append, ih]
      simp only [List.flatMap_cons, List.flatMap_nil, List.append_nil, List.map_map]
      rw [Nat.succ_mul, List.range_add]
      congr 1

theorem sum_map_add {α : Type} (l : List α) (f g : α → ℕ) :
    (l.map (fun x => f x + g x)).sum = (l.map f).sum + (l.map g).sum := by
  induction l with
  | nil => rfl
  | cons a t ih => simp [ih]; omega

theorem sum_range_indicator (N v : ℕ) :
    ((List.range N).map (fun w => if w = v then 1 else 0)).sum =
      if v < N then 1 else 0 := by
  induction N with
  | zero => simp
  | succ n ih =>
      rw [List.range_succ, List.map_append, List.sum_append, ih]
      simp only [List.map_cons, List.map_nil, List.sum_cons, List.sum_nil]
      split_ifs <;> omega

theorem sum_range_indicator_shift (N k v : ℕ) :
    ((List.range N).map (fun w => if k + w = v then 1 else 0)).sum =
      if k ≤ v ∧ v < k + N then 1 else 0 := by
  induction N with
  | zero =>
      simp only [List.range_zero, List.map_nil, List.sum_nil]
      rw [if_neg]
      omega
  | succ n ih =>
      rw [List.range_succ, List.map_append, List.sum_append, ih]
      simp only [List.map_cons, List.map_nil, List.sum_cons, List.sum_nil]
      split_ifs <;> omega

/-- **C9.** For a grid composite with skin and `subgrid = 0` on an `R×C` lattice,
`MakeSkin2` produces exactly `2*R*C` skin vertices (the vertex grid duplicated into
two layers) and each skin vertex is bound to exactly one bone, with weight 1. -/
theorem C9_skin2_one_bone_per_vertex (s : CSpec) :
    (skin2Verts s).length = 2 * (s.count0 * s.count1) ∧
    (∀ b ∈ clothBones s, b.vertweight = [1, 1]) ∧
    (∀ v < 2 * (s.count0 * s.count1),
      ((clothBones s).map (fun b => b.vertid.count v)).sum = 1) := by
  refine ⟨?_, ?_, ?_⟩
  · rw [skin2Verts, show List.range 2 = [0, 1] from rfl]
    simp [length_enum2, Nat.two_mul]
  · intro b hb
    obtain ⟨q, hq, rfl⟩ := List.mem_map.mp hb
    rfl
  · intro v hv
    rw [clothBones, List.map_map]
    have hpt : ((enum2 s.count0 s.count1).map
        ((fun b => b.vertid.count v) ∘ fun q =>
          ({ bodyname := if s.ctype = .grid then fmt2 s.pfx "B" q.1 q.2
                         else fmt3 s.pfx "B" q.1 q.2 0
             vertid := [q.1 * s.count1 + q.2,
                        s.count0 * s.count1 + (q.1 * s.count1 + q.2)]
             vertweight := [1, 1] } : SkinBone))) =
        ((enum2 s.count0 s.count1).map ((fun w =>
          (if w = v then 1 else 0) +
          (if s.count0 * s.count1 + w = v then 1 else 0)) ∘ fun q =>
            q.1 * s.count1 + q.2)) := by
      apply List.map_congr_left
      intro q hq
      simp only [Function.comp, List.count_cons, List.count_nil, beq_iff_eq]
      split_ifs <;> omega
    rw [hpt, ← List.map_map, map_enc_enum2, sum_map_add, sum_range_indicator,
      sum_range_indicator_shift]
    split_ifs <;> omega

/-- **C9 witness**: a 3×3 grid yields 18 skin vertices, all weights 1, and vertex 4
is bound to exactly one bone. -/
theorem C9_skin2_one_bone_per_vertex_witness :
    (skin2Verts { ctype := .grid, count0 := 3, count1 := 3 }).length = 2 * (3 * 3) ∧
    ((clothBones { ctype := .grid, count0 := 3, count1 := 3 }).map
      (fun b => b.vertid.count 4)).sum = 1 :=
  ⟨(C9_skin2_one_bone_per_vertex { ctype := .grid, count0 := 3, count1 := 3 }).1,
   (C9_skin2_one_bone_per_vertex { ctype := .grid, count0 := 3, count1 := 3 }).2.2 4
     (by decide)⟩

/-! ## Bicubic subgrid weight matrices (`MakeSkin2Subgrid`).

`subW` is the fixed 16×16 basis-change matrix `C = W * [f; f_x; f_y; f_xy]`;
`subD00` … `subD22` are the nine sparse stencil tables (one per boundary-position
class), each a flat sequence of `(column, value)` pairs with one `-1` sentinel per
row, exactly as in the source. -/

def subWrows : List (List ℚ) :=
  [[1, 0, 0, 0, 0, 0, 0, 0, 0, 0, 0, 0, 0, 0, 0, 0],
   [0, 0, 0, 0, 0, 0, 0, 0, 1, 0, 0, 0, 0, 0, 0, 0],
   [-3, 0, 0, 3, 0, 0, 0, 0, -2, 0, 0, -1, 0, 0, 0, 0],
   [2, 0, 0, -2, 0, 0, 0, 0, 1, 0, 0, 1, 0, 0, 0, 0],
   [0, 0, 0, 0, 1, 0, 0, 0, 0, 0, 0, 0, 0, 0, 0, 0],
   [0, 0, 0, 0, 0, 0, 0, 0, 0, 0, 0, 0, 1, 0, 0, 0],
   [0, 0, 0, 0, -3, 0, 0, 3, 0, 0, 0, 0, -2, 0, 0, -1],
   [0, 0, 0, 0, 2, 0, 0, -2, 0, 0, 0, 0, 1, 0, 0, 1],
   [-3, 3, 0, 0, -2, -1, 0, 0, 0, 0, 0, 0, 0, 0, 0, 0],
   [0, 0, 0, 0, 0, 0, 0, 0, -3, 3, 0, 0, -2, -1, 0, 0],
   [9, -9, 9, -9, 6, 3, -3, -6, 6, -6, -3, 3, 4, 2, 1, 2],
   [-6, 6, -6, 6, -4, -2, 2, 4, -3, 3, 3, -3, -2, -1, -1, -2],
   [2, -2, 0, 0, 1, 1, 0, 0, 0, 0, 0, 0, 0, 0, 0, 0],
   [0, 0, 0, 0, 0, 0, 0, 0, 2, -2, 0, 0, 1, 1, 0, 0],
   [-6, 6, -6, 6, -3, -3, 3, 3, -4, 4, 2, -2, -2, -2, -1, -1],
   [4, -4, 4, -4, 2, 2, -2, -2, 2, -2, -2, 2, 1, 1, 1, 1]]

/-- Entry `subW[k][j]` of the basis-change matrix. -/
def subW (k j : Fin 16) : ℚ := (subWrows.getD (k : ℕ) []).getD (j : ℕ) 0

def subD00 : List ℚ :=
  [5, 1, -1, 9, 1, -1, 10, 1, -1, 6, 1, -1, 5, -1, 9, 1, -1, 5, -0.5, 13, 0.5, -1, 6, -0.5, 14, 0.5, -1, 6, -1, 10, 1, -1, 5, -1, 6, 1, -1, 9, -1, 10, 1, -1, 9, -0.5, 11, 0.5, -1, 5, -0.5, 7, 0.5, -1, 9, -1, 6, -1, 5, 1, 10, 1, -1, 13, -0.5, 6, -0.5, 5, 0.5, 14, 0.5, -1, 13, -0.25, 7, -0.25, 5, 0.25, 15, 0.25, -1, 9, -0.5, 7, -0.5, 5, 0.5, 11, 0.5, -1]

def subD10 : List ℚ :=
  [5, 1, -1, 9, 1, -1, 10, 1, -1, 6, 1, -1, 1, -0.5, 9, 0.5, -1, 5, -0.5, 13, 0.5, -1, 6, -0.5, 14, 0.5, -1, 2, -0.5, 10, 0.5, -1, 5, -1, 6, 1, -1, 9, -1, 10, 1, -1, 9, -0.5, 11, 0.5, -1, 5, -0.5, 7, 0.5, -1, 9, -0.5, 2, -0.5, 1, 0.5, 10, 0.5, -1, 13, -0.5, 6, -0.5, 5, 0.5, 14, 0.5, -1, 13, -0.25, 7, -0.25, 5, 0.25, 15, 0.25, -1, 9, -0.25, 3, -0.25, 1, 0.25, 11, 0.25, -1]

def subD20 : List ℚ :=
  [5, 1, -1, 9, 1, -1, 10, 1, -1, 6, 1, -1, 1, -0.5, 9, 0.5, -1, 5, -1, 9, 1, -1, 6, -1, 10, 1, -1, 2, -0.5, 10, 0.5, -1, 5, -1, 6, 1, -1, 9, -1, 10, 1, -1, 9, -0.5, 11, 0.5, -1, 5, -0.5, 7, 0.5, -1, 9, -0.5, 2, -0.5, 1, 0.5, 10, 0.5, -1, 9, -1, 6, -1, 5, 1, 10, 1, -1, 9, -0.5, 7, -0.5, 5, 0.5, 11, 0.5, -1, 9, -0.25, 3, -0.25, 1, 0.25, 11, 0.25, -1]

def subD01 : List ℚ :=
  [5, 1, -1, 9, 1, -1, 10, 1, -1, 6, 1, -1, 5, -1, 9, 1, -1, 5, -0.5, 13, 0.5, -1, 6, -0.5, 14, 0.5, -1, 6, -1, 10, 1, -1, 4, -0.5, 6, 0.5, -1, 8, -0.5, 10, 0.5, -1, 9, -0.5, 11, 0.5, -1, 5, -0.5, 7, 0.5, -1, 8, -0.5, 6, -0.5, 4, 0.5, 10, 0.5, -1, 12, -0.25, 6, -0.25, 4, 0.25, 14, 0.25, -1, 13, -0.25, 7, -0.25, 5, 0.25, 15, 0.25, -1, 9, -0.5, 7, -0.5, 5, 0.5, 11, 0.5, -1]

def subD11 : List ℚ :=
  [5, 1, -1, 9, 1, -1, 10, 1, -1, 6, 1, -1, 1, -0.5, 9, 0.5, -1, 5, -0.5, 13, 0.5, -1, 6, -0.5, 14, 0.5, -1, 2, -0.5, 10, 0.5, -1, 4, -0.5, 6, 0.5, -1, 8, -0.5, 10, 0.5, -1, 9, -0.5, 11, 0.5, -1, 5, -0.5, 7, 0.5, -1, 8, -0.25, 2, -0.25, 0, 0.25, 10, 0.25, -1, 12, -0.25, 6, -0.25, 4, 0.25, 14, 0.25, -1, 13, -0.25, 7, -0.25, 5, 0.25, 15, 0.25, -1, 9, -0.25, 3, -0.25, 1, 0.25, 11, 0.25, -1]

def subD21 : List ℚ :=
  [5, 1, -1, 9, 1, -1, 10, 1, -1, 6, 1, -1, 1, -0.5, 9, 0.5, -1, 5, -1, 9, 1, -1, 6, -1, 10, 1, -1, 2, -0.5, 10, 0.5, -1, 4, -0.5, 6, 0.5, -1, 8, -0.5, 10, 0.5, -1, 9, -0.5, 11, 0.5, -1, 5, -0.5, 7, 0.5, -1, 8, -0.25, 2, -0.25, 0, 0.25, 10, 0.25, -1, 8, -0.5, 6, -0.5, 4, 0.5, 10, 0.5, -1, 9, -0.5, 7, -0.5, 5, 0.5, 11, 0.5, -1, 9, -0.25, 3, -0.25, 1, 0.25, 11, 0.25, -1]

def subD02 : List ℚ :=
  [5, 1, -1, 9, 1, -1, 10, 1, -1, 6, 1, -1, 5, -1, 9, 1, -1, 5, -0.5, 13, 0.5, -1, 6, -0.5, 14, 0.5, -1, 6, -1, 10, 1, -1, 4, -0.5, 6, 0.5, -1, 8, -0.5, 10, 0.5, -1, 9, -1, 10, 1, -1, 5, -1, 6, 1, -1, 8, -0.5, 6, -0.5, 4, 0.5, 10, 0.5, -1, 12, -0.25, 6, -0.25, 4, 0.25, 14, 0.25, -1, 13, -0.5, 6, -0.5, 5, 0.5, 14, 0.5, -1, 9, -1, 6, -1, 5, 1, 10, 1, -1]

def subD12 : List ℚ :=
  [5, 1, -1, 9, 1, -1, 10, 1, -1, 6, 1, -1, 1, -0.5, 9, 0.5, -1, 5, -0.5, 13, 0.5, -1, 6, -0.5, 14, 0.5, -1, 2, -0.5, 10, 0.5, -1, 4, -0.5, 6, 0.5, -1, 8, -0.5, 10, 0.5, -1, 9, -1, 10, 1, -1, 5, -1, 6, 1, -1, 8, -0.25, 2, -0.25, 0, 0.25, 10, 0.25, -1, 12, -0.25, 6, -0.25, 4, 0.25, 14, 0.25, -1, 13, -0.5, 6, -0.5, 5, 0.5, 14, 0.5, -1, 9, -0.5, 2, -0.5, 1, 0.5, 10, 0.5, -1]

def subD22 : List ℚ :=
  [5, 1, -1, 9, 1, -1, 10, 1, -1, 6, 1, -1, 1, -0.5, 9, 0.5, -1, 5, -1, 9, 1, -1, 6, -1, 10, 1, -1, 2, -0.5, 10, 0.5, -1, 4, -0.5, 6, 0.5, -1, 8, -0.5, 10, 0.5, -1, 9, -1, 10, 1, -1, 5, -1, 6, 1, -1, 8, -0.25, 2, -0.25, 0, 0.25, 10, 0.25, -1, 8, -0.5, 6, -0.5, 4, 0.5, 10, 0.5, -1, 9, -1, 6, -1, 5, 1, 10, 1, -1, 9, -0.5, 2, -0.5, 1, 0.5, 10, 0.5, -1]

/-- The `Dp[dx][dy]` table of stencil pointers. -/
def Dp : Fin 3 → Fin 3 → List ℚ :=
  ![![subD00, subD01, subD02], ![subD10, subD11, subD12], ![subD20, subD21, subD22]]

/-- The dense-`D` fill loop: the flat table is `(column, value)` pairs per row,
rows terminated by `-1`; the column index goes through `mju_round`. -/
def splitRows : List ℚ → List (List (ℕ × ℚ))
  | [] => []
  | c :: rest =>
      if c = -1 then [] :: splitRows rest
      else
        match rest with
        | [] => [[]]
        | v :: rest2 =>
            match splitRows rest2 with
            | [] => [[((round c).toNat, v)]]
            | row :: rws => (((round c).toNat, v) :: row) :: rws

theorem parse_subD00 : splitRows subD00 =
    [[(5, (1 : ℚ))],
     [(9, (1 : ℚ))],
     [(10, (1 : ℚ))],
     [(6, (1 : ℚ))],
     [(5, (-1 : ℚ)), (9, (1 : ℚ))],
     [(5, (-0.5 : ℚ)), (13, (0.5 : ℚ))],
     [(6, (-0.5 : ℚ)), (14, (0.5 : ℚ))],
     [(6, (-1 : ℚ)), (10, (1 : ℚ))],
     [(5, (-1 : ℚ)), (6, (1 : ℚ))],
     [(9, (-1 : ℚ)), (10, (1 : ℚ))],
     [(9, (-0.5 : ℚ)), (11, (0.5 : ℚ))],
     [(5, (-0.5 : ℚ)), (7, (0.5 : ℚ))],
     [(9, (-1 : ℚ)), (6, (-1 : ℚ)), (5, (1 : ℚ)), (10, (1 : ℚ))],
     [(13, (-0.5 : ℚ)), (6, (-0.5 : ℚ)), (5, (0.5 : ℚ)), (14, (0.5 : ℚ))],
     [(13, (-0.25 : ℚ)), (7, (-0.25 : ℚ)), (5, (0.25 : ℚ)), (15, (0.25 : ℚ))],
     [(9, (-0.5 : ℚ)), (7, (-0.5 : ℚ)), (5, (0.5 : ℚ)), (11, (0.5 : ℚ))]] := by
  norm_num [splitRows]
  decide

theorem parse_subD10 : splitRows subD10 =
    [[(5, (1 : ℚ))],
     [(9, (1 : ℚ))],
     [(10, (1 : ℚ))],
     [(6, (1 : ℚ))],
     [(1, (-0.5 : ℚ)), (9, (0.5 : ℚ))],
     [(5, (-0.5 : ℚ)), (13, (0.5 : ℚ))],
     [(6, (-0.5 : ℚ)), (14, (0.5 : ℚ))],
     [(2, (-0.5 : ℚ)), (10, (0.5 : ℚ))],
     [(5, (-1 : ℚ)), (6, (1 : ℚ))],
     [(9, (-1 : ℚ)), (10, (1 : ℚ))],
     [(9, (-0.5 : ℚ)), (11, (0.5 : ℚ))],
     [(5, (-0.5 : ℚ)), (7, (0.5 : ℚ))],
     [(9, (-0.5 : ℚ)), (2, (-0.5 : ℚ)), (1, (0.5 : ℚ)), (10, (0.5 : ℚ))],
     [(13, (-0.5 : ℚ)), (6, (-0.5 : ℚ)), (5, (0.5 : ℚ)), (14, (0.5 : ℚ))],
     [(13, (-0.25 : ℚ)), (7, (-0.25 : ℚ)), (5, (0.25 : ℚ)), (15, (0.25 : ℚ))],
     [(9, (-0.25 : ℚ)), (3, (-0.25 : ℚ)), (1, (0.25 : ℚ)), (11, (0.25 : ℚ))]] := by
  norm_num [splitRows]
  decide

theorem parse_subD20 : splitRows subD20 =
    [[(5, (1 : ℚ))],
     [(9, (1 : ℚ))],
     [(10, (1 : ℚ))],
     [(6, (1 : ℚ))],
     [(1, (-0.5 : ℚ)), (9, (0.5 : ℚ))],
     [(5, (-1 : ℚ)), (9, (1 : ℚ))],
     [(6, (-1 : ℚ)), (10, (1 : ℚ))],
     [(2, (-0.5 : ℚ)), (10, (0.5 : ℚ))],
     [(5, (-1 : ℚ)), (6, (1 : ℚ))],
     [(9, (-1 : ℚ)), (10, (1 : ℚ))],
     [(9, (-0.5 : ℚ)), (11, (0.5 : ℚ))],
     [(5, (-0.5 : ℚ)), (7, (0.5 : ℚ))],
     [(9, (-0.5 : ℚ)), (2, (-0.5 : ℚ)), (1, (0.5 : ℚ)), (10, (0.5 : ℚ))],
     [(9, (-1 : ℚ)), (6, (-1 : ℚ)), (5, (1 : ℚ)), (10, (1 : ℚ))],
     [(9, (-0.5 : ℚ)), (7, (-0.5 : ℚ)), (5, (0.5 : ℚ)), (11, (0.5 : ℚ))],
     [(9, (-0.25 : ℚ)), (3, (-0.25 : ℚ)), (1, (0.25 : ℚ)), (11, (0.25 : ℚ))]] := by
  norm_num [splitRows]
  decide

theorem parse_subD01 : splitRows subD01 =
    [[(5, (1 : ℚ))],
     [(9, (1 : ℚ))],
     [(10, (1 : ℚ))],
     [(6, (1 : ℚ))],
     [(5, (-1 : ℚ)), (9, (1 : ℚ))],
     [(5, (-0.5 : ℚ)), (13, (0.5 : ℚ))],
     [(6, (-0.5 : ℚ)), (14, (0.5 : ℚ))],
     [(6, (-1 : ℚ)), (10, (1 : ℚ))],
     [(4, (-0.5 : ℚ)), (6, (0.5 : ℚ))],
     [(8, (-0.5 : ℚ)), (10, (0.5 : ℚ))],
     [(9, (-0.5 : ℚ)), (11, (0.5 : ℚ))],
     [(5, (-0.5 : ℚ)), (7, (0.5 : ℚ))],
     [(8, (-0.5 : ℚ)), (6, (-0.5 : ℚ)), (4, (0.5 : ℚ)), (10, (0.5 : ℚ))],
     [(12, (-0.25 : ℚ)), (6, (-0.25 : ℚ)), (4, (0.25 : ℚ)), (14, (0.25 : ℚ))],
     [(13, (-0.25 : ℚ)), (7, (-0.25 : ℚ)), (5, (0.25 : ℚ)), (15, (0.25 : ℚ))],
     [(9, (-0.5 : ℚ)), (7, (-0.5 : ℚ)), (5, (0.5 : ℚ)), (11, (0.5 : ℚ))]] := by
  norm_num [splitRows]
  decide

theorem parse_subD11 : splitRows subD11 =
    [[(5, (1 : ℚ))],
     [(9, (1 : ℚ))],
     [(10, (1 : ℚ))],
     [(6, (1 : ℚ))],
     [(1, (-0.5 : ℚ)), (9, (0.5 : ℚ))],
     [(5, (-0.5 : ℚ)), (13, (0.5 : ℚ))],
     [(6, (-0.5 : ℚ)), (14, (0.5 : ℚ))],
     [(2, (-0.5 : ℚ)), (10, (0.5 : ℚ))],
     [(4, (-0.5 : ℚ)), (6, (0.5 : ℚ))],
     [(8, (-0.5 : ℚ)), (10, (0.5 : ℚ))],
     [(9, (-0.5 : ℚ)), (11, (0.5 : ℚ))],
     [(5, (-0.5 : ℚ)), (7, (0.5 : ℚ))],
     [(8, (-0.25 : ℚ)), (2, (-0.25 : ℚ)), (0, (0.25 : ℚ)), (10, (0.25 : ℚ))],
     [(12, (-0.25 : ℚ)), (6, (-0.25 : ℚ)), (4, (0.25 : ℚ)), (14, (0.25 : ℚ))],
     [(13, (-0.25 : ℚ)), (7, (-0.25 : ℚ)), (5, (0.25 : ℚ)), (15, (0.25 : ℚ))],
     [(9, (-0.25 : ℚ)), (3, (-0.25 : ℚ)), (1, (0.25 : ℚ)), (11, (0.25 : ℚ))]] := by
  norm_num [splitRows]
  decide

theorem parse_subD21 : splitRows subD21 =
    [[(5, (1 : ℚ))],
     [(9, (1 : ℚ))],
     [(10, (1 : ℚ))],
     [(6, (1 : ℚ))],
     [(1, (-0.5 : ℚ)), (9, (0.5 : ℚ))],
     [(5, (-1 : ℚ)), (9, (1 : ℚ))],
     [(6, (-1 : ℚ)), (10, (1 : ℚ))],
     [(2, (-0.5 : ℚ)), (10, (0.5 : ℚ))],
     [(4, (-0.5 : ℚ)), (6, (0.5 : ℚ))],
     [(8, (-0.5 : ℚ)), (10, (0.5 : ℚ))],
     [(9, (-0.5 : ℚ)), (11, (0.5 : ℚ))],
     [(5, (-0.5 : ℚ)), (7, (0.5 : ℚ))],
     [(8, (-0.25 : ℚ)), (2, (-0.25 : ℚ)), (0, (0.25 : ℚ)), (10, (0.25 : ℚ))],
     [(8, (-0.5 : ℚ)), (6, (-0.5 : ℚ)), (4, (0.5 : ℚ)), (10, (0.5 : ℚ))],
     [(9, (-0.5 : ℚ)), (7, (-0.5 : ℚ)), (5, (0.5 : ℚ)), (11, (0.5 : ℚ))],
     [(9, (-0.25 : ℚ)), (3, (-0.25 : ℚ)), (1, (0.25 : ℚ)), (11, (0.25 : ℚ))]] := by
  norm_num [splitRows]
  decide

theorem parse_subD02 : splitRows subD02 =
    [[(5, (1 : ℚ))],
     [(9, (1 : ℚ))],
     [(10, (1 : ℚ))],
     [(6, (1 : ℚ))],
     [(5, (-1 : ℚ)), (9, (1 : ℚ))],
     [(5, (-0.5 : ℚ)), (13, (0.5 : ℚ))],
     [(6, (-0.5 : ℚ)), (14, (0.5 : ℚ))],
     [(6, (-1 : ℚ)), (10, (1 : ℚ))],
     [(4, (-0.5 : ℚ)), (6, (0.5 : ℚ))],
     [(8, (-0.5 : ℚ)), (10, (0.5 : ℚ))],
     [(9, (-1 : ℚ)), (10, (1 : ℚ))],
     [(5, (-1 : ℚ)), (6, (1 : ℚ))],
     [(8, (-0.5 : ℚ)), (6, (-0.5 : ℚ)), (4, (0.5 : ℚ)), (10, (0.5 : ℚ))],
     [(12, (-0.25 : ℚ)), (6, (-0.25 : ℚ)), (4, (0.25 : ℚ)), (14, (0.25 : ℚ))],
     [(13, (-0.5 : ℚ)), (6, (-0.5 : ℚ)), (5, (0.5 : ℚ)), (14, (0.5 : ℚ))],
     [(9, (-1 : ℚ)), (6, (-1 : ℚ)), (5, (1 : ℚ)), (10, (1 : ℚ))]] := by
  norm_num [splitRows]
  decide

theorem parse_subD12 : splitRows subD12 =
    [[(5, (1 : ℚ))],
     [(9, (1 : ℚ))],
     [(10, (1 : ℚ))],
     [(6, (1 : ℚ))],
     [(1, (-0.5 : ℚ)), (9, (0.5 : ℚ))],
     [(5, (-0.5 : ℚ)), (13, (0.5 : ℚ))],
     [(6, (-0.5 : ℚ)), (14, (0.5 : ℚ))],
     [(2, (-0.5 : ℚ)), (10, (0.5 : ℚ))],
     [(4, (-0.5 : ℚ)), (6, (0.5 : ℚ))],
     [(8, (-0.5 : ℚ)), (10, (0.5 : ℚ))],
     [(9, (-1 : ℚ)), (10, (1 : ℚ))],
     [(5, (-1 : ℚ)), (6, (1 : ℚ))],
     [(8, (-0.25 : ℚ)), (2, (-0.25 : ℚ)), (0, (0.25 : ℚ)), (10, (0.25 : ℚ))],
     [(12, (-0.25 : ℚ)), (6, (-0.25 : ℚ)), (4, (0.25 : ℚ)), (14, (0.25 : ℚ))],
     [(13, (-0.5 : ℚ)), (6, (-0.5 : ℚ)), (5, (0.5 : ℚ)), (14, (0.5 : ℚ))],
     [(9, (-0.5 : ℚ)), (2, (-0.5 : ℚ)), (1, (0.5 : ℚ)), (10, (0.5 : ℚ))]] := by
  norm_num [splitRows]
  decide

theorem parse_subD22 : splitRows subD22 =
    [[(5, (1 : ℚ))],
     [(9, (1 : ℚ))],
     [(10, (1 : ℚ))],
     [(6, (1 : ℚ))],
     [(1, (-0.5 : ℚ)), (9, (0.5 : ℚ))],
     [(5, (-1 : ℚ)), (9, (1 : ℚ))],
     [(6, (-1 : ℚ)), (10, (1 : ℚ))],
     [(2, (-0.5 : ℚ)), (10, (0.5 : ℚ))],
     [(4, (-0.5 : ℚ)), (6, (0.5 : ℚ))],
     [(8, (-0.5 : ℚ)), (10, (0.5 : ℚ))],
     [(9, (-1 : ℚ)), (10, (1 : ℚ))],
     [(5, (-1 : ℚ)), (6, (1 : ℚ))],
     [(8, (-0.25 : ℚ)), (2, (-0.25 : ℚ)), (0, (0.25 : ℚ)), (10, (0.25 : ℚ))],
     [(8, (-0.5 : ℚ)), (6, (-0.5 : ℚ)), (4, (0.5 : ℚ)), (10, (0.5 : ℚ))],
     [(9, (-1 : ℚ)), (6, (-1 : ℚ)), (5, (1 : ℚ)), (10, (1 : ℚ))],
     [(9, (-0.5 : ℚ)), (2, (-0.5 : ℚ)), (1, (0.5 : ℚ)), (10, (0.5 : ℚ))]] := by
  norm_num [splitRows]
  decide

/-- Entry lookup in one sparse row of a dense `D` matrix. -/
def rowLookup (row : List (ℕ × ℚ)) (c : Fin 16) : ℚ :=
  match row.find? (fun p => p.1 == (c : ℕ)) with
  | some p => p.2
  | none => 0

/-- Entry `D(dx,dy)[r][c]` of the dense stencil matrix built by the fill loop. -/
def Dmat (dx dy : Fin 3) (r c : Fin 16) : ℚ :=
  rowLookup ((splitRows (Dp dx dy)).getD (r : ℕ) []) c

/-- The row of powers `x^i * y^j` filled for one subdivision point (the `XY` row
construction, in the source's column order). -/
def XYpoly (x y : ℚ) : Fin 16 → ℚ :=
  ![1, y, y*y, y*y*y,
    x, x*y, x*y*y, x*y*y*y,
    x*x, x*x*y, x*x*y*y, x*x*y*y*y,
    x*x*x, x*x*x*y, x*x*x*y*y, x*x*x*y*y*y]

/-- Row `(sx, sy)` of `XY`: `x = sx*step`, `y = sy*step`, `step = 1/(1+subgrid)`. -/
def XYrow (skinsubgrid sx sy : ℕ) : Fin 16 → ℚ :=
  XYpoly ((sx : ℚ) * (1 / (1 + (skinsubgrid : ℚ))))
         ((sy : ℚ) * (1 / (1 + (skinsubgrid : ℚ))))

/-- The weight of bone `bi` at subdivision vertex `(sx, sy)` in boundary class
`(dx, dy)`: entry `bi` of row `sx*(2+subgrid)+sy` of `XY * W * D(d)` (`Weight` in
`MakeSkin2Subgrid`). -/
def subgridWeight (skinsubgrid sx sy : ℕ) (dx dy : Fin 3) (bi : Fin 16) : ℚ :=
  ∑ j : Fin 16, (∑ k : Fin 16, XYrow skinsubgrid sx sy k * subW k j) * Dmat dx dy j bi

theorem rowLookup_eq_zero_of_not_mem {row : List (ℕ × ℚ)} {k : ℕ} (hk : k < 16)
    (h : k ∉ row.map Prod.fst) : rowLookup row ⟨k, hk⟩ = 0 := by
  rw [rowLookup]
  have hfind : row.find? (fun p => p.1 == k) = none := by
    rw [List.find?_eq_none]
    intro p hp
    simp only [beq_iff_eq]
    intro hc
    exact h (hc ▸ List.mem_map_of_mem Prod.fst hp)
  rw [hfind]

/-- Summing a sparse-row lookup over all 16 columns gives the sum of the stored
values, provided the stored column indices are distinct and in range. -/
theorem sum_rowLookup (row : List (ℕ × ℚ))
    (hnd : (row.map Prod.fst).Nodup) (hlt : ∀ k ∈ row.map Prod.fst, k < 16) :
    (∑ c : Fin 16, rowLookup row c) = (row.map Prod.snd).sum := by
  induction row with
  | nil => simp [rowLookup]
  | cons p rest ih =>
      obtain ⟨k, v⟩ := p
      have hk : k < 16 := hlt k (by simp)
      have hknot : k ∉ rest.map Prod.fst := by
        intro hc
        exact (List.nodup_cons.mp (by simpa using hnd)).1 hc
      have hstep : ∀ c : Fin 16, rowLookup ((k, v) :: rest) c =
          if c = (⟨k, hk⟩ : Fin 16) then v else rowLookup rest c := by
        intro c
        rcases eq_or_ne k (c : ℕ) with hc | hc
        · rw [rowLookup, List.find?_cons_of_pos _ (by simp [hc])]
          rw [if_pos (Fin.ext hc.symm)]
        · rw [rowLookup, List.find?_cons_of_neg _ (by simp [hc]),
            if_neg (fun he => hc (congrArg Fin.val he).symm)]
          rfl
      have hupd : (fun c : Fin 16 => rowLookup ((k, v) :: rest) c) =
          Function.update (fun c => rowLookup rest c) ⟨k, hk⟩ v := by
        funext c
        rw [hstep c, Function.update_apply]
      calc (∑ c : Fin 16, rowLookup ((k, v) :: rest) c)
          = ∑ c : Fin 16, Function.update (fun c => rowLookup rest c) ⟨k, hk⟩ v c := by
            rw [show (fun c : Fin 16 => rowLookup ((k, v) :: rest) c) = _ from hupd]
        _ = v + ∑ c in Finset.univ \ {(⟨k, hk⟩ : Fin 16)}, rowLookup rest c := by
            rw [Finset.sum_update_of_mem (Finset.mem_univ _)]
        _ = v + ((∑ c : Fin 16, rowLookup rest c) - rowLookup rest ⟨k, hk⟩) := by
            rw [Finset.sum_eq_sum_diff_singleton_add (Finset.mem_univ (⟨k, hk⟩ : Fin 16))
              (fun c => rowLookup rest c)]
            ring
        _ = v + (rest.map Prod.snd).sum := by
            rw [rowLookup_eq_zero_of_not_mem hk hknot,
              ih (by simpa using (List.nodup_cons.mp (by simpa using hnd)).2)
                 (fun k2 hk2 => hlt k2 (by simp [hk2]))]
            ring
        _ = (((k, v) :: rest).map Prod.snd).sum := by simp

/-- Row sums of a parsed stencil matrix: rows 0–3 (the `f` rows) sum to 1, the
derivative rows sum to 0. -/
theorem Dsum_generic (rws : List (List (ℕ × ℚ)))
    (hnd : ∀ r ∈ rws, (r.map Prod.fst).Nodup ∧ ∀ k ∈ r.map Prod.fst, k < 16)
    (hsums : rws.map (fun r => (r.map Prod.snd).sum) =
      [1, 1, 1, 1, 0, 0, 0, 0, 0, 0, 0, 0, 0, 0, 0, 0])
    (j : Fin 16) :
    (∑ c : Fin 16, rowLookup (rws.getD (j : ℕ) []) c) = if (j : ℕ) < 4 then 1 else 0 := by
  have hlen : rws.length = 16 := by
    have hl := congrArg List.length hsums
    simpa using hl
  have hj : (j : ℕ) < rws.length := by rw [hlen]; exact j.isLt
  have hmem : rws.getD (j : ℕ) [] ∈ rws := by
    rw [List.getD_eq_getElem rws [] hj]
    exact List.getElem_mem hj
  obtain ⟨hnd1, hlt1⟩ := hnd _ hmem
  rw [sum_rowLookup _ hnd1 hlt1]
  have hsum1 : ((rws.getD (j : ℕ) []).map Prod.snd).sum =
      (([1, 1, 1, 1, 0, 0, 0, 0, 0, 0, 0, 0, 0, 0, 0, 0] : List ℚ)).getD (j : ℕ) 0 := by
    rw [← hsums, List.getD_eq_getElem rws [] hj,
      List.getD_eq_getElem _ 0 (by simpa using hj), List.getElem_map]
  rw [hsum1]
  have hval : ∀ n, n < 16 →
      (([1, 1, 1, 1, 0, 0, 0, 0, 0, 0, 0, 0, 0, 0, 0, 0] : List ℚ)).getD n 0 =
        if n < 4 then 1 else 0 := by
    intro n hn
    interval_cases n <;> norm_num
  exact hval (j : ℕ) (by omega)

theorem Dsum00 (j : Fin 16) :
    (∑ bi : Fin 16, Dmat 0 0 j bi) = if (j : ℕ) < 4 then 1 else 0 := by
  have h : ∀ bi : Fin 16, Dmat 0 0 j bi =
      rowLookup ((splitRows subD00).getD (j : ℕ) []) bi := fun bi => rfl
  simp_rw [h, parse_subD00]
  exact Dsum_generic _ (by decide) (by norm_num) j

theorem Dsum01 (j : Fin 16) :
    (∑ bi : Fin 16, Dmat 0 1 j bi) = if (j : ℕ) < 4 then 1 else 0 := by
  have h : ∀ bi : Fin 16, Dmat 0 1 j bi =
      rowLookup ((splitRows subD01).getD (j : ℕ) []) bi := fun bi => rfl
  simp_rw [h, parse_subD01]
  exact Dsum_generic _ (by decide) (by norm_num) j

theorem Dsum02 (j : Fin 16) :
    (∑ bi : Fin 16, Dmat 0 2 j bi) = if (j : ℕ) < 4 then 1 else 0 := by
  have h : ∀ bi : Fin 16, Dmat 0 2 j bi =
      rowLookup ((splitRows subD02).getD (j : ℕ) []) bi := fun bi => rfl
  simp_rw [h, parse_subD02]
  exact Dsum_generic _ (by decide) (by norm_num) j

theorem Dsum10 (j : Fin 16) :
    (∑ bi : Fin 16, Dmat 1 0 j bi) = if (j : ℕ) < 4 then 1 else 0 := by
  have h : ∀ bi : Fin 16, Dmat 1 0 j bi =
      rowLookup ((splitRows subD10).getD (j : ℕ) []) bi := fun bi => rfl
  simp_rw [h, parse_subD10]
  exact Dsum_generic _ (by decide) (by norm_num) j

theorem Dsum11 (j : Fin 16) :
    (∑ bi : Fin 16, Dmat 1 1 j bi) = if (j : ℕ) < 4 then 1 else 0 := by
  have h : ∀ bi : Fin 16, Dmat 1 1 j bi =
      rowLookup ((splitRows subD11).getD (j : ℕ) []) bi := fun bi => rfl
  simp_rw [h, parse_subD11]
  exact Dsum_generic _ (by decide) (by norm_num) j

theorem Dsum12 (j : Fin 16) :
    (∑ bi : Fin 16, Dmat 1 2 j bi) = if (j : ℕ) < 4 then 1 else 0 := by
  have h : ∀ bi : Fin 16, Dmat 1 2 j bi =
      rowLookup ((splitRows subD12).getD (j : ℕ) []) bi := fun bi => rfl
  simp_rw [h, parse_subD12]
  exact Dsum_generic _ (by decide) (by norm_num) j

theorem Dsum20 (j : Fin 16) :
    (∑ bi : Fin 16, Dmat 2 0 j bi) = if (j : ℕ) < 4 then 1 else 0 := by
  have h : ∀ bi : Fin 16, Dmat 2 0 j bi =
      rowLookup ((splitRows subD20).getD (j : ℕ) []) bi := fun bi => rfl
  simp_rw [h, parse_subD20]
  exact Dsum_generic _ (by decide) (by norm_num) j

theorem Dsum21 (j : Fin 16) :
    (∑ bi : Fin 16, Dmat 2 1 j bi) = if (j : ℕ) < 4 then 1 else 0 := by
  have h : ∀ bi : Fin 16, Dmat 2 1 j bi =
      rowLookup ((splitRows subD21).getD (j : ℕ) []) bi := fun bi => rfl
  simp_rw [h, parse_subD21]
  exact Dsum_generic _ (by decide) (by norm_num) j

theorem Dsum22 (j : Fin 16) :
    (∑ bi : Fin 16, Dmat 2 2 j bi) = if (j : ℕ) < 4 then 1 else 0 := by
  have h : ∀ bi : Fin 16, Dmat 2 2 j bi =
      rowLookup ((splitRows subD22).getD (j : ℕ) []) bi := fun bi => rfl
  simp_rw [h, parse_subD22]
  exact Dsum_generic _ (by decide) (by norm_num) j

theorem Dsum (dx dy : Fin 3) (j : Fin 16) :
    (∑ bi : Fin 16, Dmat dx dy j bi) = if (j : ℕ) < 4 then 1 else 0 := by
  fin_cases dx <;> fin_cases dy
  exacts [Dsum00 j, Dsum01 j, Dsum02 j, Dsum10 j, Dsum11 j, Dsum12 j,
          Dsum20 j, Dsum21 j, Dsum22 j]

/-- Weighting the 16 columns by the indicator of the first four and summing equals
the sum of the first four entries. -/
theorem sum16_take4 (row : List ℚ) :
    (∑ j : Fin 16, row.getD (j : ℕ) 0 * (if (j : ℕ) < 4 then 1 else 0)) =
      (row.take 4).sum := by
  have hexp : (∑ j : Fin 16, row.getD (j : ℕ) 0 * (if (j : ℕ) < 4 then 1 else 0)) =
      row.getD 0 0 + row.getD 1 0 + row.getD 2 0 + row.getD 3 0 := by
    simp [Fin.sum_univ_succ]
    ring
  rw [hexp]
  rcases row with _ | ⟨a0, row⟩
  · simp
  rcases row with _ | ⟨a1, row⟩
  · simp
  rcases row with _ | ⟨a2, row⟩
  · simp [add_assoc]
  rcases row with _ | ⟨a3, row⟩
  · simp [add_assoc]
  simp [add_assoc]

/-- Column sums of `subW` over the four `f` columns: 1 in row 0, 0 elsewhere. -/
theorem subW_cols (k : Fin 16) :
    (∑ j : Fin 16, subW k j * (if (j : ℕ) < 4 then 1 else 0)) =
      if k = 0 then 1 else 0 := by
  have h : ∀ j : Fin 16, subW k j = (subWrows.getD (k : ℕ) []).getD (j : ℕ) 0 :=
    fun j => rfl
  simp_rw [h, sum16_take4]
  fin_cases k <;> norm_num [subWrows, Fin.ext_iff]

/-- Partition of unity of one weight row `XY(x,y) * W * D(d)`, for arbitrary
sample coordinates. -/
theorem subgrid_weight_rowsum (x y : ℚ) (dx dy : Fin 3) :
    (∑ bi : Fin 16, ∑ j : Fin 16,
      (∑ k : Fin 16, XYpoly x y k * subW k j) * Dmat dx dy j bi) = 1 := by
  rw [Finset.sum_comm]
  have h1 : ∀ j : Fin 16, (∑ bi : Fin 16,
      (∑ k : Fin 16, XYpoly x y k * subW k j) * Dmat dx dy j bi) =
      (∑ k : Fin 16, XYpoly x y k * subW k j) * (if (j : ℕ) < 4 then 1 else 0) := by
    intro j
    rw [← Finset.mul_sum, Dsum dx dy j]
  rw [Finset.sum_congr rfl (fun j _ => h1 j)]
  have h2 : (∑ j : Fin 16, (∑ k : Fin 16, XYpoly x y k * subW k j) *
      (if (j : ℕ) < 4 then 1 else 0)) =
      ∑ k : Fin 16, XYpoly x y k *
        (∑ j : Fin 16, subW k j * (if (j : ℕ) < 4 then 1 else 0)) := by
    simp_rw [Finset.sum_mul, Finset.mul_sum]
    rw [Finset.sum_comm]
    simp_rw [mul_assoc]
  rw [h2]
  rw [Finset.sum_congr rfl (fun k _ => by rw [subW_cols k])]
  simp only [mul_ite, mul_one, mul_zero]
  rw [Finset.sum_ite_eq' Finset.univ (0 : Fin 16) (XYpoly x y)]
  simp [XYpoly]

/-- **C1.** For every subdivision count, every boundary-position class `(dx, dy)`
and every subgrid vertex `(sx, sy)`, the 16 bone weights of the bicubic subgrid
solver (the corresponding row of `XY * W * D(d)`) sum to exactly 1, so
interpolating a constant field reproduces that constant. -/
theorem C1_subgrid_partition_of_unity (skinsubgrid sx sy : ℕ) (dx dy : Fin 3)
    (hsx : sx ≤ 1 + skinsubgrid) (hsy : sy ≤ 1 + skinsubgrid) :
    (∑ bi : Fin 16, subgridWeight skinsubgrid sx sy dx dy bi) = 1 := by
  unfold subgridWeight XYrow
  exact subgrid_weight_rowsum _ _ dx dy

/-- **C1 witness**: the weight row at `subgrid = 1`, vertex `(1, 2)`, class
`(1, 0)` sums to 1. -/
theorem C1_subgrid_partition_of_unity_witness :
    (∑ bi : Fin 16, subgridWeight 1 1 2 1 0 bi) = 1 :=
  C1_subgrid_partition_of_unity 1 1 2 1 0 (by decide) (by decide)

end MjComposite